import Mathlib

/-!
Verification development for the Cursor Cost Explorer analysis engine.

The JavaScript source is shallowly embedded in Lean 4:
* JS numbers are modelled as exact rationals (`ℚ`);
* JS strings as Lean `String`, with ASCII lowercasing and substring search
  implemented on `List Char` (all strings handled by the program are ASCII);
* functions that `throw` are modelled as `Except String`;
* the nullable `records` argument of every `analyze` entry point is an
  `Option (List UsageRecord)`;
* `Array.prototype.sort` (stable in modern JS engines) is modelled by
  `List.insertionSort`, which performs the same stable insertion;
* `Math.sqrt` never has its value inspected directly by the program: it is
  only used in comparisons (`x > mean + 2*sigma`, `sigma/mean > c`), which
  are embedded by the equivalent squared comparisons over `ℚ`.

Each analyzer definition mirrors one function of the repository source,
named after it.
-/

section CursorCostExplorer

attribute [local semireducible] Rat.mul Rat.inv Rat.add Rat.sub

/-- ASCII lowercasing of a single character, the fragment of
`String.prototype.toLowerCase` exercised by the program inputs. -/
def lowerChar (c : Char) : Char :=
  match c with
  | 'A' => 'a' | 'B' => 'b' | 'C' => 'c' | 'D' => 'd' | 'E' => 'e' | 'F' => 'f'
  | 'G' => 'g' | 'H' => 'h' | 'I' => 'i' | 'J' => 'j' | 'K' => 'k' | 'L' => 'l'
  | 'M' => 'm' | 'N' => 'n' | 'O' => 'o' | 'P' => 'p' | 'Q' => 'q' | 'R' => 'r'
  | 'S' => 's' | 'T' => 't' | 'U' => 'u' | 'V' => 'v' | 'W' => 'w' | 'X' => 'x'
  | 'Y' => 'y' | 'Z' => 'z' | c => c

/-- Source: `s.toLowerCase()` as a character list. -/
def lowerStr (s : String) : List Char := s.toList.map lowerChar

/-- Source: `big.includes(sub)` on character lists. -/
def listContains (big sub : List Char) : Bool :=
  match big with
  | [] => sub.isEmpty
  | _ :: t => sub.isPrefixOf big || listContains t sub

/-- Source: `s.toLowerCase().includes(sub)` for a string `s` and an ASCII needle. -/
def lowerIncludes (s : String) (sub : String) : Bool :=
  listContains (lowerStr s) sub.toList

/-- Lexicographic code-unit comparison of character lists, as used by the
default `Array.prototype.sort` comparator and `localeCompare` on the ASCII
date strings of this program. -/
def jsStrLtL : List Char → List Char → Bool
  | [], [] => false
  | [], _ :: _ => true
  | _ :: _, [] => false
  | x :: xs, y :: ys =>
    if x.toNat < y.toNat then true
    else if y.toNat < x.toNat then false
    else jsStrLtL xs ys

/-- Source: `a <= b` in JS default string order. -/
def jsStrLe (a b : String) : Bool := !(jsStrLtL b.toList a.toList)

/-- Floor of a rational, computed from the normalised numerator and
denominator so that it evaluates by kernel reduction. -/
def ratFloor (x : ℚ) : ℤ := x.num / (x.den : ℤ)

theorem ratFloor_eq_floor (x : ℚ) : ratFloor x = ⌊x⌋ := by
  rw [Rat.floor_def]
  rfl

/-- Source: `Math.floor` on the rational model of a JS number. -/
def jsFloor (x : ℚ) : ℚ := (ratFloor x : ℚ)

/-- Source: `Math.round` (round half toward positive infinity). -/
def jsRound (x : ℚ) : ℚ := (ratFloor (x + 1/2) : ℚ)

theorem jsRound_nonneg (x : ℚ) (h : 0 ≤ x) : 0 ≤ jsRound x := by
  unfold jsRound
  rw [ratFloor_eq_floor]
  have hz : (0:ℤ) ≤ ⌊x + 1/2⌋ := Int.le_floor.mpr (by push_cast; linarith)
  exact_mod_cast hz

theorem jsRound_le (x B : ℚ) (hB : ∃ n : ℤ, (n:ℚ) = B) (h : x ≤ B) :
    jsRound x ≤ B := by
  obtain ⟨n, rfl⟩ := hB
  unfold jsRound
  rw [ratFloor_eq_floor]
  have hz : ⌊x + 1/2⌋ < n + 1 := Int.floor_lt.mpr (by push_cast; linarith)
  have hz2 : ⌊x + 1/2⌋ ≤ n := by omega
  exact_mod_cast hz2

/-- Source: `x.toFixed(d)` for a nonnegative JS number (helper for `qToFixed`). -/
def qToFixedNonneg (x : ℚ) (d : ℕ) : String :=
  let n : ℕ := (ratFloor (x * ((10:ℚ) ^ d) + 1/2)).toNat
  if d = 0 then toString n
  else
    let fr := toString (n % 10 ^ d)
    toString (n / 10 ^ d) ++ "." ++
      String.mk (List.replicate (d - fr.length) '0' ++ fr.toList)

/-- Source: `x.toFixed(d)`: decimal rendering with `d` digits, rounding ties away
from zero as the ECMAScript `toFixed` does. -/
def qToFixed (x : ℚ) (d : ℕ) : String :=
  if x < 0 then "-" ++ qToFixedNonneg (-x) d else qToFixedNonneg x d

/-- The keys of a JS object in insertion order: each distinct element at
its first occurrence, exactly as the grouping loops insert object keys. -/
def firstSeen (l : List String) : List String :=
  l.foldl (fun acc x => if x ∈ acc then acc else acc ++ [x]) []

/-- Source: `arr.reduce((s, x) => s + f(x), 0)`. -/
def sumBy {α : Type} (f : α → ℚ) (l : List α) : ℚ :=
  l.foldl (fun s x => s + f x) 0

theorem foldl_add_eq (f : α → ℚ) (l : List α) (init : ℚ) :
    l.foldl (fun s x => s + f x) init = init + (l.map f).sum := by
  induction l generalizing init with
  | nil => simp
  | cons a t ih => simp [List.foldl_cons, ih (init + f a)]; ring

theorem sumBy_eq (f : α → ℚ) (l : List α) : sumBy f l = (l.map f).sum := by
  unfold sumBy
  rw [foldl_add_eq]
  ring

/-- Source: `UsageRecord` entity: a single Cursor usage event
(`src/domain/entities/UsageRecord.js`). -/
structure UsageRecord where
  date : String
  kind : String
  model : String
  cost : ℚ
  totalTokens : ℚ
  cacheRead : ℚ
  input : ℚ
  output : ℚ
deriving DecidableEq

/-- Source: `UsageRecord.isIncluded`. -/
def UsageRecord.isIncluded (r : UsageRecord) : Bool :=
  lowerIncludes r.kind "included"

/-- Source: `UsageRecord.isOnDemand`. -/
def UsageRecord.isOnDemand (r : UsageRecord) : Bool :=
  lowerIncludes r.kind "on-demand"

/-- Source: `UsageRecord.isErrored`. -/
def UsageRecord.isErrored (r : UsageRecord) : Bool :=
  lowerIncludes r.kind "errored" || lowerIncludes r.kind "aborted"

/-- Source: `UsageRecord.getDateOnly`: `date.split('T')[0]`. -/
def UsageRecord.getDateOnly (r : UsageRecord) : String :=
  String.mk (r.date.toList.takeWhile (fun c => c != 'T'))

/-- An entry of the static model registry
(`src/domain/models/registry.js`). -/
structure ModelInfo where
  name : String
  category : String
  useCase : String
  isThinkingModel : Bool

/-- Source: `MODEL_REGISTRY`, in object insertion order. -/
def MODEL_REGISTRY : List (String × ModelInfo) :=
  [ ("grok-code-fast-1",
      { name := "grok-code-fast-1", category := "cost_efficient",
        useCase := "Syntax checks, quick refactors, simple questions",
        isThinkingModel := false }),
    ("gemini-2.5-pro",
      { name := "gemini-2.5-pro", category := "cost_efficient",
        useCase := "Code analysis, documentation, general coding tasks",
        isThinkingModel := false }),
    ("composer-1",
      { name := "composer-1", category := "specialized",
        useCase := "Multi-file edits, complex refactoring",
        isThinkingModel := false }),
    ("claude-4.5-sonnet",
      { name := "claude-4.5-sonnet", category := "specialized",
        useCase := "Complex features, architectural decisions, difficult problems",
        isThinkingModel := false }),
    ("claude-4.5-sonnet-thinking",
      { name := "claude-4.5-sonnet-thinking", category := "premium",
        useCase := "Architecture planning, critical design decisions only",
        isThinkingModel := true }),
    ("claude-4-opus",
      { name := "claude-4-opus", category := "premium",
        useCase := "Most complex problems requiring highest quality reasoning",
        isThinkingModel := false }) ]

/-- Source: `getModelInfo`: exact, then case-insensitive, then two-sided substring
match over the registry keys. -/
def getModelInfo (modelName : String) : Option ModelInfo :=
  match MODEL_REGISTRY.find? (fun p => p.1 == modelName) with
  | some p => some p.2
  | none =>
    match MODEL_REGISTRY.find?
        (fun p => lowerStr p.1 == lowerStr modelName) with
    | some p => some p.2
    | none =>
      match MODEL_REGISTRY.find? (fun p =>
          listContains (lowerStr modelName) (lowerStr p.1) ||
          listContains (lowerStr p.1) (lowerStr modelName)) with
      | some p => some p.2
      | none => none

/-- Source: `isThinkingModel`: registry lookup with a name-based fallback. -/
def isThinkingModelName (modelName : String) : Bool :=
  match getModelInfo modelName with
  | some info => info.isThinkingModel
  | none => lowerIncludes modelName "thinking"

/-- Source: `getModelRecommendation`. -/
def getModelRecommendation (modelName : String) (calculatedCategory : String) :
    String :=
  match getModelInfo modelName with
  | some info => "Use for: " ++ info.useCase
  | none =>
    if calculatedCategory == "cost_efficient" then
      "Use for: General coding tasks, frequent use recommended"
    else if calculatedCategory == "specialized" then
      "Use for: Complex tasks requiring advanced reasoning"
    else
      "Use sparingly: Only for the most complex problems"

/-- Source: `ModelUsage` entity: per-model aggregate
(`src/domain/entities/ModelUsage.js`). -/
structure ModelUsage where
  model : String
  totalCost : ℚ
  requestCount : ℚ
  totalTokens : ℚ
  totalInputTokens : ℚ
  totalOutputTokens : ℚ
  totalCacheRead : ℚ

/-- The `ModelUsage` constructor: aggregates the records of one model. -/
def ModelUsage.ofRecords (model : String) (records : List UsageRecord) :
    ModelUsage :=
  { model := model
    totalCost := sumBy (fun r => r.cost) records
    requestCount := records.length
    totalTokens := sumBy (fun r => r.totalTokens) records
    totalInputTokens := sumBy (fun r => r.input) records
    totalOutputTokens := sumBy (fun r => r.output) records
    totalCacheRead := sumBy (fun r => r.cacheRead) records }

/-- Source: `ModelUsage.getCostPerMillionTokens`. -/
def ModelUsage.getCostPerMillionTokens (m : ModelUsage) : ℚ :=
  if m.totalTokens = 0 then 0 else m.totalCost / m.totalTokens * 1000000

/-- Source: `ModelUsage.getCostPerMillionOutputTokens`. -/
def ModelUsage.getCostPerMillionOutputTokens (m : ModelUsage) : ℚ :=
  if m.totalOutputTokens = 0 then 0
  else m.totalCost / m.totalOutputTokens * 1000000

/-- Source: `ModelUsage.getAverageCostPerRequest`. -/
def ModelUsage.getAverageCostPerRequest (m : ModelUsage) : ℚ :=
  if m.requestCount = 0 then 0 else m.totalCost / m.requestCount

/-- Source: `ModelUsage.getCacheEfficiency`. -/
def ModelUsage.getCacheEfficiency (m : ModelUsage) : ℚ :=
  if m.totalTokens = 0 then 0 else m.totalCacheRead / m.totalTokens * 100

/-- Source: `ModelUsage.getPercentageOfTotal`. -/
def ModelUsage.getPercentageOfTotal (m : ModelUsage) (totalCost : ℚ) : ℚ :=
  if totalCost = 0 then 0 else m.totalCost / totalCost * 100

/-- Source: `ModelUsage.getCategory`: thresholds on cost per million (total)
tokens. -/
def ModelUsage.getCategory (m : ModelUsage) : String :=
  let costPerM := m.getCostPerMillionTokens
  if costPerM < 50 then "cost_efficient"
  else if costPerM < 500 then "specialized"
  else "premium"

/-- Source: `ModelUsage.isThinkingModel`. -/
def ModelUsage.isThinkingModel (m : ModelUsage) : Bool :=
  isThinkingModelName m.model

/-- The `summary` object computed by `CostAnalyzer.calculateSummary`
(`src/domain/analyzers/cost.js`), with its nested `period`, `cost` and
`usage` objects flattened into prefixed fields. -/
structure CostSummary where
  period_start : String
  period_end : String
  period_days : ℚ
  cost_total : ℚ
  cost_daily_average : ℚ
  usage_total_requests : ℚ
  usage_requests_per_day : ℚ
  usage_total_tokens : ℚ
deriving DecidableEq

/-- An entry of `breakdown_by_model`. -/
structure ModelBreakdownEntry where
  model : String
  total_cost : ℚ
  request_count : ℚ
  percentage : ℚ
deriving DecidableEq

/-- One bucket of `breakdown_by_type`. -/
structure TypeBucket where
  cost : ℚ
  request_count : ℚ
  percentage : ℚ
deriving DecidableEq

/-- The `breakdown_by_type` object. -/
structure TypeBreakdown where
  included : TypeBucket
  on_demand : TypeBucket
  errored : TypeBucket
deriving DecidableEq

/-- Source: `DailyUsage.toObject()` (`src/domain/entities/DailyUsage.js`). -/
structure DailyUsageObj where
  date : String
  cost : ℚ
  request_count : ℚ
  total_tokens : ℚ
  average_cost_per_request : ℚ
  average_tokens_per_request : ℚ
deriving DecidableEq

/-- An entry of `top_expensive_requests`. -/
structure ExpensiveRequestEntry where
  date : String
  model : String
  kind : String
  cost : ℚ
  total_tokens : ℚ
  row_number : ℚ
deriving DecidableEq

/-- An entry of `top_expensive_days`. -/
structure ExpensiveDayEntry where
  date : String
  cost : ℚ
  request_count : ℚ
deriving DecidableEq

/-- The full result object of `CostAnalyzer.analyze`. -/
structure CostAnalysis where
  summary : CostSummary
  breakdown_by_model : List ModelBreakdownEntry
  breakdown_by_type : TypeBreakdown
  daily_costs : List DailyUsageObj
  top_expensive_requests : List ExpensiveRequestEntry
  top_expensive_days : List ExpensiveDayEntry
  most_expensive_model : Option ModelBreakdownEntry
deriving DecidableEq

namespace CostAnalyzer

/-- Source: `CostAnalyzer.calculateSummary`. The JS `Set` of dates preserves
insertion order, hence `firstSeen`; `Array.from(set).sort()` sorts the
date strings in code-unit order. -/
def calculateSummary (records : List UsageRecord) : CostSummary :=
  let totalCost := sumBy (fun r => r.cost) records
  let totalRequests : ℚ := records.length
  let totalTokens := sumBy (fun r => r.totalTokens) records
  let uniqueDates := firstSeen (records.map (fun r => r.getDateOnly))
  let uniqueDays : ℕ := uniqueDates.length
  let sortedDates :=
    List.insertionSort (fun a b => jsStrLe a b = true) uniqueDates
  let days : ℚ := if uniqueDays > 0 then (uniqueDays : ℚ) else 1
  { period_start := sortedDates.headD ""
    period_end := sortedDates.getLastD ""
    period_days := (uniqueDays : ℚ)
    cost_total := totalCost
    cost_daily_average := totalCost / days
    usage_total_requests := totalRequests
    usage_requests_per_day := totalRequests / days
    usage_total_tokens := totalTokens }

/-- Source: `CostAnalyzer.calculateBreakdownByModel`: group by model in first-seen
order, build `ModelUsage` aggregates, then stable sort by cost
descending. -/
def calculateBreakdownByModel (records : List UsageRecord) :
    List ModelBreakdownEntry :=
  let keys := firstSeen (records.map (fun r => r.model))
  let totalCost := sumBy (fun r => r.cost) records
  let breakdown := keys.map (fun m =>
    let modelRecords := records.filter (fun r => r.model == m)
    let mu := ModelUsage.ofRecords m modelRecords
    { model := mu.model
      total_cost := mu.totalCost
      request_count := mu.requestCount
      percentage := mu.getPercentageOfTotal totalCost : ModelBreakdownEntry })
  List.insertionSort (fun a b => b.total_cost ≤ a.total_cost) breakdown

/-- Accumulator of the classification loop in `calculateBreakdownByType`. -/
structure TypeAccum where
  includedCost : ℚ
  onDemandCost : ℚ
  erroredCost : ℚ
  includedCount : ℚ
  onDemandCount : ℚ
  erroredCount : ℚ

/-- One iteration of the classification loop. The errored branch adds `0`
to the cost bucket, as the source does (errored requests are unbilled). -/
def typeStep (acc : TypeAccum) (r : UsageRecord) : TypeAccum :=
  if r.isIncluded then
    { acc with includedCost := acc.includedCost + r.cost
               includedCount := acc.includedCount + 1 }
  else if r.isOnDemand then
    { acc with onDemandCost := acc.onDemandCost + r.cost
               onDemandCount := acc.onDemandCount + 1 }
  else if r.isErrored then
    { acc with erroredCost := acc.erroredCost + 0
               erroredCount := acc.erroredCount + 1 }
  else acc

/-- Source: `CostAnalyzer.calculateBreakdownByType`. -/
def calculateBreakdownByType (records : List UsageRecord) : TypeBreakdown :=
  let acc := records.foldl typeStep ⟨0, 0, 0, 0, 0, 0⟩
  let totalCost := sumBy (fun r => r.cost) records
  { included :=
      { cost := acc.includedCost
        request_count := acc.includedCount
        percentage :=
          if totalCost > 0 then acc.includedCost / totalCost * 100 else 0 }
    on_demand :=
      { cost := acc.onDemandCost
        request_count := acc.onDemandCount
        percentage :=
          if totalCost > 0 then acc.onDemandCost / totalCost * 100 else 0 }
    errored :=
      { cost := acc.erroredCost
        request_count := acc.erroredCount
        percentage := 0 } }

/-- Source: `CostAnalyzer.calculateDailyCosts`: group by date in first-seen order,
build `DailyUsage` objects, sort ascending by date. -/
def calculateDailyCosts (records : List UsageRecord) : List DailyUsageObj :=
  let keys := firstSeen (records.map (fun r => r.getDateOnly))
  let dailyUsages := keys.map (fun date =>
    let dateRecords := records.filter (fun r => r.getDateOnly == date)
    let cost := sumBy (fun r => r.cost) dateRecords
    let requestCount : ℚ := dateRecords.length
    let totalTokens := sumBy (fun r => r.totalTokens) dateRecords
    { date := date
      cost := cost
      request_count := requestCount
      total_tokens := totalTokens
      average_cost_per_request :=
        if requestCount = 0 then 0 else cost / requestCount
      average_tokens_per_request :=
        if requestCount = 0 then 0 else totalTokens / requestCount
      : DailyUsageObj })
  List.insertionSort (fun a b => jsStrLe a.date b.date = true) dailyUsages

/-- Source: `CostAnalyzer.findTopExpensiveRequests`. -/
def findTopExpensiveRequests (records : List UsageRecord) (limit : ℕ) :
    List ExpensiveRequestEntry :=
  let withIndex := records.enum.map (fun p => (p.2, p.1 + 1))
  let sorted :=
    List.insertionSort (fun a b : UsageRecord × ℕ => b.1.cost ≤ a.1.cost)
      withIndex
  (sorted.take limit).map (fun p =>
    { date := p.1.date
      model := p.1.model
      kind := p.1.kind
      cost := p.1.cost
      total_tokens := p.1.totalTokens
      row_number := (p.2 : ℚ) })

/-- Source: `CostAnalyzer.findTopExpensiveDays`. -/
def findTopExpensiveDays (dailyCosts : List DailyUsageObj) (limit : ℕ) :
    List ExpensiveDayEntry :=
  let sorted :=
    List.insertionSort (fun a b : DailyUsageObj => b.cost ≤ a.cost) dailyCosts
  (sorted.take limit).map (fun d =>
    { date := d.date, cost := d.cost, request_count := d.request_count })

/-- Source: `CostAnalyzer.findMostExpensiveModel`. -/
def findMostExpensiveModel (breakdownByModel : List ModelBreakdownEntry) :
    Option ModelBreakdownEntry :=
  breakdownByModel.head?

/-- Source: `CostAnalyzer.analyze`: throws when `records` is null or empty. -/
def analyze (records : Option (List UsageRecord)) :
    Except String CostAnalysis :=
  match records with
  | none => .error "Records array cannot be empty"
  | some [] => .error "Records array cannot be empty"
  | some rs =>
    let dailyCosts := calculateDailyCosts rs
    let breakdownByModel := calculateBreakdownByModel rs
    .ok
      { summary := calculateSummary rs
        breakdown_by_model := breakdownByModel
        breakdown_by_type := calculateBreakdownByType rs
        daily_costs := dailyCosts
        top_expensive_requests := findTopExpensiveRequests rs 5
        top_expensive_days := findTopExpensiveDays dailyCosts 5
        most_expensive_model := findMostExpensiveModel breakdownByModel }

end CostAnalyzer

/-- The ASCII apostrophe, kept out of string literals. -/
def apos : String := String.mk [Char.ofNat 39]

/-- One entry of the `rankings` array of `ModelEfficiencyAnalyzer.analyze`
(`src/domain/analyzers/model-efficiency.js`). -/
structure ModelRanking where
  rank : ℚ
  model : String
  efficiency_score : ℚ
  cost_per_million_tokens : ℚ
  cost_per_million_output_tokens : ℚ
  average_cost_per_request : ℚ
  category : String
  is_thinking_model : Bool
  recommendation : String
  total_cost : ℚ
  request_count : ℚ
  total_tokens : ℚ
  cache_efficiency : ℚ
deriving DecidableEq

/-- The result object of `ModelEfficiencyAnalyzer.analyze`. -/
structure ModelEfficiencyAnalysis where
  rankings : List ModelRanking
deriving DecidableEq

namespace ModelEfficiencyAnalyzer

/-- Source: `ModelEfficiencyAnalyzer.calculateEfficiencyScore`: base score
`100 - costPerMillion/10` (output-token basis and a 1.2 boost for thinking
models), clamped to `[0, 100]`, then rounded to 2 decimal places. -/
def calculateEfficiencyScore (modelUsage : ModelUsage) : ℚ :=
  let costPerMillion :=
    if modelUsage.isThinkingModel then modelUsage.getCostPerMillionOutputTokens
    else modelUsage.getCostPerMillionTokens
  let score := 100 - costPerMillion / 10
  let score := if modelUsage.isThinkingModel then score * (12/10) else score
  let score := max 0 (min 100 score)
  jsRound (score * 100) / 100

/-- Source: `ModelEfficiencyAnalyzer.generateRecommendation`. -/
def generateRecommendation (modelUsage : ModelUsage) : String :=
  getModelRecommendation modelUsage.model modelUsage.getCategory

/-- Source: `ModelEfficiencyAnalyzer.analyze`. -/
def analyze (records : Option (List UsageRecord)) :
    Except String ModelEfficiencyAnalysis :=
  match records with
  | none => .error "Records array cannot be empty"
  | some [] => .error "Records array cannot be empty"
  | some rs =>
    let keys := firstSeen (rs.map (fun r => r.model))
    let modelUsages := keys.map (fun m =>
      ModelUsage.ofRecords m (rs.filter (fun r => r.model == m)))
    let efficiencyData := modelUsages.map (fun mu =>
      (mu, calculateEfficiencyScore mu, generateRecommendation mu))
    let sorted :=
      List.insertionSort
        (fun a b : ModelUsage × ℚ × String => b.2.1 ≤ a.2.1) efficiencyData
    .ok
      { rankings := sorted.enum.map (fun p =>
          let mu := p.2.1
          { rank := ((p.1 + 1 : ℕ) : ℚ)
            model := mu.model
            efficiency_score := p.2.2.1
            cost_per_million_tokens := mu.getCostPerMillionTokens
            cost_per_million_output_tokens := mu.getCostPerMillionOutputTokens
            average_cost_per_request := mu.getAverageCostPerRequest
            category := mu.getCategory
            is_thinking_model := mu.isThinkingModel
            recommendation := p.2.2.2
            total_cost := mu.totalCost
            request_count := mu.requestCount
            total_tokens := mu.totalTokens
            cache_efficiency := mu.getCacheEfficiency }) }

end ModelEfficiencyAnalyzer

/-- A plan tier of `PLAN_TIERS` (`src/domain/analyzers/plan-optimization.js`). -/
structure PlanTier where
  name : String
  monthlyCost : ℚ
  fastRequestsLimit : ℚ
  description : String

/-- Source: `PLAN_TIERS.FREE`. -/
def PLAN_TIERS_FREE : PlanTier :=
  { name := "Free", monthlyCost := 0, fastRequestsLimit := 50,
    description := "Free tier with limited requests" }

/-- Source: `PLAN_TIERS.PRO`. -/
def PLAN_TIERS_PRO : PlanTier :=
  { name := "Pro", monthlyCost := 20, fastRequestsLimit := 500,
    description := "Pro tier with 500 fast requests/month" }

/-- Source: `PLAN_TIERS.ULTRA`. -/
def PLAN_TIERS_ULTRA : PlanTier :=
  { name := "Ultra", monthlyCost := 200, fastRequestsLimit := 10000,
    description := "Ultra tier with ~10,000 fast requests/month" }

/-- Source: `PLAN_TIERS[name.toUpperCase()].monthlyCost`. -/
def planTierCost (planName : String) : ℚ :=
  if planName == "Free" then PLAN_TIERS_FREE.monthlyCost
  else if planName == "Pro" then PLAN_TIERS_PRO.monthlyCost
  else PLAN_TIERS_ULTRA.monthlyCost

/-- The `current_plan` object of `PlanOptimizer.detectCurrentPlan`. -/
structure CurrentPlan where
  plan : String
  confidence : String
  monthly_cost : ℚ
  monthly_requests : ℚ
  included_requests_percentage : ℚ
deriving DecidableEq

/-- The result of `PlanOptimizer.analyzeRequestVolume`. -/
structure RequestAnalysis where
  total_requests : ℚ
  monthly_requests : ℚ
  included_requests : ℚ
  on_demand_requests : ℚ
  errored_requests : ℚ
  exceeds_pro_limit : Bool
  exceeds_ultra_limit : Bool
  requests_per_day : ℚ
deriving DecidableEq

/-- Source: `PlanRecommendation.toObject()`
(`src/domain/entities/PlanRecommendation.js`). -/
structure PlanRecommendationObj where
  current_plan : String
  recommended_plan : String
  recommended_cost : ℚ
  actual_monthly_cost : ℚ
  savings_monthly : ℚ
  savings_yearly : ℚ
  savings_percentage : ℚ
  confidence : String
  reasoning : List String
  actions : List String
  is_optimal : Bool
  should_act : Bool
  is_upgrade : Bool
  is_downgrade : Bool
  monthly_requests : ℚ
  exceeds_pro_limit : Bool
deriving DecidableEq

/-- The tier ranking used by `PlanRecommendation.isUpgrade/isDowngrade`. -/
def tierRank (plan : String) : ℚ :=
  if plan == "Free" then 1
  else if plan == "Pro" then 2
  else if plan == "Ultra" then 3
  else 0

namespace PlanOptimizer

/-- Source: `PlanOptimizer.calculateMonthlyCost`. The JS `days || 1` maps `0` to
`1`; `total || 0` is the identity on numbers. -/
def calculateMonthlyCost (costSummary : CostSummary) : ℚ :=
  let days := if costSummary.period_days = 0 then 1 else costSummary.period_days
  let totalCost := costSummary.cost_total
  totalCost / days * 30

/-- Source: `PlanOptimizer.detectCurrentPlan`. (`includedPercentage` divides by the
record count; the caller guarantees a non-empty list.) -/
def detectCurrentPlan (records : List UsageRecord) (costSummary : CostSummary)
    (monthlyCost : ℚ) : CurrentPlan :=
  let totalRequests : ℚ := records.length
  let days := if costSummary.period_days = 0 then 1 else costSummary.period_days
  let monthlyRequests := totalRequests / days * 30
  let includedRequests : ℚ := (records.filter (fun r => r.isIncluded)).length
  let includedPercentage := includedRequests / totalRequests * 100
  let planConfidence : String × String :=
    if monthlyCost > 220 then (PLAN_TIERS_ULTRA.name, "high")
    else if monthlyCost > 15 ∧ monthlyCost ≤ 220 then
      (if includedPercentage > 70 ∧ monthlyRequests > 400 then
        (PLAN_TIERS_PRO.name, "high")
      else if monthlyRequests > 1000 then (PLAN_TIERS_ULTRA.name, "medium")
      else (PLAN_TIERS_PRO.name, "medium"))
    else
      (PLAN_TIERS_FREE.name, if monthlyCost < 5 then "high" else "medium")
  { plan := planConfidence.1
    confidence := planConfidence.2
    monthly_cost := monthlyCost
    monthly_requests := monthlyRequests
    included_requests_percentage := includedPercentage }

/-- Source: `PlanOptimizer.analyzeRequestVolume`. -/
def analyzeRequestVolume (records : List UsageRecord)
    (costSummary : CostSummary) : RequestAnalysis :=
  let totalRequests : ℚ := records.length
  let days := if costSummary.period_days = 0 then 1 else costSummary.period_days
  let monthlyRequests := totalRequests / days * 30
  { total_requests := totalRequests
    monthly_requests := monthlyRequests
    included_requests := (records.filter (fun r => r.isIncluded)).length
    on_demand_requests := (records.filter (fun r => r.isOnDemand)).length
    errored_requests := (records.filter (fun r => r.isErrored)).length
    exceeds_pro_limit := monthlyRequests > PLAN_TIERS_PRO.fastRequestsLimit
    exceeds_ultra_limit := monthlyRequests > PLAN_TIERS_ULTRA.fastRequestsLimit
    requests_per_day := totalRequests / days }

/-- The value held by the `savings` variable at the end of the decision
tree in `PlanOptimizer.generateRecommendation`, before the conservative
10% discount and the `max(0, _)` clamp are applied. -/
def planRawSavings (monthlyCost : ℚ) (requestAnalysis : RequestAnalysis) : ℚ :=
  if monthlyCost > 220 then monthlyCost - PLAN_TIERS_ULTRA.monthlyCost
  else if monthlyCost ≥ 180 ∧ monthlyCost ≤ 220 then
    monthlyCost - PLAN_TIERS_ULTRA.monthlyCost
  else if monthlyCost ≥ 15 ∧ monthlyCost < 180 then 0
  else if requestAnalysis.monthly_requests > PLAN_TIERS_FREE.fastRequestsLimit
    then 0
  else monthlyCost

/-- Source: `PlanOptimizer.generateRecommendation`: the decision tree on monthly
spend, the conservative `savings * 0.9` discount, and the
`PlanRecommendation` entity serialised by `toObject()`. -/
def generateRecommendation (currentPlan : CurrentPlan) (monthlyCost : ℚ)
    (requestAnalysis : RequestAnalysis) (_costSummary : CostSummary) :
    PlanRecommendationObj :=
  let branch : String × ℚ × String × List String × List String :=
    if monthlyCost > 220 then
      ("Ultra", monthlyCost - PLAN_TIERS_ULTRA.monthlyCost, "high",
        [ "You" ++ apos ++ "re spending $" ++ qToFixed monthlyCost 2 ++
            "/month, which exceeds Ultra" ++ apos ++ "s fixed cost of $200/month",
          "Upgrading to Ultra would save $" ++
            qToFixed (monthlyCost - PLAN_TIERS_ULTRA.monthlyCost) 2 ++
            "/month" ] ++
          (if requestAnalysis.exceeds_pro_limit then
            ["You consistently exceed Pro" ++ apos ++ "s 500 request limit"]
          else []),
        ["Visit cursor.sh/settings → Billing → Upgrade to Ultra"])
    else if monthlyCost ≥ 180 ∧ monthlyCost ≤ 220 then
      ("Ultra", monthlyCost - PLAN_TIERS_ULTRA.monthlyCost, "medium",
        [ "You" ++ apos ++ "re spending $" ++ qToFixed monthlyCost 2 ++
            "/month, close to Ultra" ++ apos ++ "s fixed cost",
          "Ultra provides unlimited requests and priority access for a predictable cost" ] ++
          (if requestAnalysis.exceeds_pro_limit then
            ["You" ++ apos ++ "re exceeding Pro" ++ apos ++ "s 500 request limit"]
          else []),
        ["Consider upgrading to Ultra for better experience and predictable costs"])
    else if monthlyCost ≥ 15 ∧ monthlyCost < 180 then
      ("Pro", 0, "high",
        [ "You" ++ apos ++ "re spending $" ++ qToFixed monthlyCost 2 ++
            "/month, which is optimal for Pro tier" ] ++
          (if !requestAnalysis.exceeds_pro_limit then
            [ "Your usage (" ++ qToFixed requestAnalysis.monthly_requests 0 ++
                " requests/month) fits within Pro" ++ apos ++ "s limits" ]
          else
            [ "You" ++ apos ++ "re exceeding Pro" ++ apos ++
                "s 500 request limit - consider Ultra if this continues" ]),
        ["Stay on Pro - your current usage is well-suited for this tier"])
    else
      let base :=
        [ "You" ++ apos ++ "re spending $" ++ qToFixed monthlyCost 2 ++
            "/month, which is low",
          "Consider downgrading to Free tier if you can work within the 50 request limit" ]
      if requestAnalysis.monthly_requests > PLAN_TIERS_FREE.fastRequestsLimit then
        ("Pro", 0, if monthlyCost < 5 then "high" else "medium",
          base ++
            [ "However, your usage (" ++
                qToFixed requestAnalysis.monthly_requests 0 ++
                " requests/month) exceeds Free tier limits",
              "Pro tier is recommended to avoid request limits" ],
          ["Evaluate if Free tier meets your needs, or stay on Pro for flexibility"])
      else
        ("Free", monthlyCost, if monthlyCost < 5 then "high" else "medium",
          base,
          ["Evaluate if Free tier meets your needs, or stay on Pro for flexibility"])
  let recommendedPlan := branch.1
  let savings := branch.2.1
  let confidence := branch.2.2.1
  let reasoning := branch.2.2.2.1
  let actions := branch.2.2.2.2
  let conservativeSavings := if savings > 0 then savings * (9/10) else 0
  let savingsMonthly := max 0 conservativeSavings
  let savingsYearly := max 0 (conservativeSavings * 12)
  let isOptimal := currentPlan.plan == recommendedPlan
  { current_plan := currentPlan.plan
    recommended_plan := recommendedPlan
    recommended_cost := planTierCost recommendedPlan
    actual_monthly_cost := monthlyCost
    savings_monthly := savingsMonthly
    savings_yearly := savingsYearly
    savings_percentage := if monthlyCost = 0 then 0
      else savingsMonthly / monthlyCost * 100
    confidence := confidence
    reasoning := reasoning
    actions := actions
    is_optimal := isOptimal
    should_act := !isOptimal && decide (savingsMonthly ≥ 5)
      && (confidence == "high")
    is_upgrade := tierRank recommendedPlan > tierRank currentPlan.plan
    is_downgrade := tierRank recommendedPlan < tierRank currentPlan.plan
    monthly_requests := requestAnalysis.monthly_requests
    exceeds_pro_limit := requestAnalysis.exceeds_pro_limit }

/-- The result object of `PlanOptimizer.analyze`. -/
structure PlanAnalysis where
  current_plan : CurrentPlan
  actual_monthly_cost : ℚ
  request_analysis : RequestAnalysis
  recommendation : PlanRecommendationObj
deriving DecidableEq

/-- Source: `PlanOptimizer.analyze`: throws on a null/empty record list or a
missing cost summary. -/
def analyze (records : Option (List UsageRecord))
    (costSummary : Option CostSummary) : Except String PlanAnalysis :=
  match records with
  | none => .error "Records array cannot be empty"
  | some [] => .error "Records array cannot be empty"
  | some rs =>
    match costSummary with
    | none => .error "Cost summary is required"
    | some cs =>
      let actualMonthlyCost := calculateMonthlyCost cs
      let currentPlan := detectCurrentPlan rs cs actualMonthlyCost
      let requestAnalysis := analyzeRequestVolume rs cs
      .ok
        { current_plan := currentPlan
          actual_monthly_cost := actualMonthlyCost
          request_analysis := requestAnalysis
          recommendation :=
            generateRecommendation currentPlan actualMonthlyCost
              requestAnalysis cs }

end PlanOptimizer

/-- One band of `CACHE_BENCHMARKS`
(`src/domain/analyzers/cache-efficiency.js`). -/
structure CacheBand where
  threshold : ℚ
  label : String
  description : String

/-- Source: `CACHE_BENCHMARKS.POOR`. -/
def CACHE_BENCHMARKS_POOR : CacheBand :=
  { threshold := 60, label := "Poor", description := "significant waste" }

/-- Source: `CACHE_BENCHMARKS.AVERAGE`. -/
def CACHE_BENCHMARKS_AVERAGE : CacheBand :=
  { threshold := 75, label := "Average", description := "room for improvement" }

/-- Source: `CACHE_BENCHMARKS.GOOD`. -/
def CACHE_BENCHMARKS_GOOD : CacheBand :=
  { threshold := 85, label := "Good", description := "effective usage" }

/-- Source: `CACHE_BENCHMARKS.EXCELLENT`. -/
def CACHE_BENCHMARKS_EXCELLENT : CacheBand :=
  { threshold := 92, label := "Excellent", description := "top 10%" }

/-- Source: `CACHE_BENCHMARKS.OUTSTANDING`. -/
def CACHE_BENCHMARKS_OUTSTANDING : CacheBand :=
  { threshold := 100, label := "Outstanding", description := "top 1%" }

/-- The `metrics` object of `CacheEfficiencyAnalyzer`. -/
structure CacheMetrics where
  total_cache_tokens : ℚ
  total_input_tokens : ℚ
  total_output_tokens : ℚ
  total_tokens : ℚ
  cache_hit_rate : ℚ
  overall_cache_efficiency : ℚ
deriving DecidableEq

/-- The `savings` object of `CacheEfficiencyAnalyzer`. -/
structure CacheSavings where
  estimated_cost_without_cache : ℚ
  actual_cost_with_cache : ℚ
  savings_monthly : ℚ
  savings_yearly : ℚ
  cache_tokens_processed : ℚ
deriving DecidableEq

/-- The `benchmark` object of `CacheEfficiencyAnalyzer`. -/
structure CacheBenchmark where
  level : String
  description : String
  cache_hit_rate : ℚ
  threshold_met : Bool
deriving DecidableEq

/-- The `potential_savings` object of the cache feedback. -/
structure PotentialSavings where
  monthly : ℚ
  yearly : ℚ
  improvement_percentage : ℚ
deriving DecidableEq

/-- The `feedback` object of `CacheEfficiencyAnalyzer`. -/
structure CacheFeedback where
  summary : String
  tips : List String
  potential_savings : Option PotentialSavings
deriving DecidableEq

/-- The result object of `CacheEfficiencyAnalyzer.analyze`. -/
structure CacheAnalysis where
  metrics : CacheMetrics
  benchmark : CacheBenchmark
  savings : CacheSavings
  feedback : CacheFeedback
deriving DecidableEq

namespace CacheEfficiencyAnalyzer

/-- Source: `CacheEfficiencyAnalyzer.calculateCacheMetrics`: token sums, the cache
hit rate `cache/(cache+input)*100` (0 when the denominator is 0) and the
overall efficiency `cache/total*100` (0 when there are no tokens). -/
def calculateCacheMetrics (records : List UsageRecord) : CacheMetrics :=
  let totalCacheTokens := sumBy (fun r => r.cacheRead) records
  let totalInputTokens := sumBy (fun r => r.input) records
  let totalOutputTokens := sumBy (fun r => r.output) records
  let totalTokens := sumBy (fun r => r.totalTokens) records
  { total_cache_tokens := totalCacheTokens
    total_input_tokens := totalInputTokens
    total_output_tokens := totalOutputTokens
    total_tokens := totalTokens
    cache_hit_rate :=
      if totalCacheTokens + totalInputTokens > 0 then
        totalCacheTokens / (totalCacheTokens + totalInputTokens) * 100
      else 0
    overall_cache_efficiency :=
      if totalTokens > 0 then totalCacheTokens / totalTokens * 100 else 0 }

/-- One iteration of the input-cost loop in `calculateCacheSavings`:
accumulates `(totalInputCost, totalInputTokens)`; the JS
`record.totalTokens || 1` maps 0 to 1. -/
def cacheSavingsStep (acc : ℚ × ℚ) (r : UsageRecord) : ℚ × ℚ :=
  if r.input > 0 then
    let inputRatio := r.input / (if r.totalTokens = 0 then 1 else r.totalTokens)
    (acc.1 + r.cost * inputRatio, acc.2 + r.input)
  else acc

/-- Source: `CacheEfficiencyAnalyzer.calculateCacheSavings`. -/
def calculateCacheSavings (records : List UsageRecord)
    (metrics : CacheMetrics) : CacheSavings :=
  let acc := records.foldl cacheSavingsStep (0, 0)
  let avgCostPerInputToken := if acc.2 > 0 then acc.1 / acc.2 else 0
  let estimatedCostWithoutCache :=
    metrics.total_cache_tokens * avgCostPerInputToken
  { estimated_cost_without_cache := estimatedCostWithoutCache
    actual_cost_with_cache := 0
    savings_monthly := estimatedCostWithoutCache
    savings_yearly := estimatedCostWithoutCache * 12
    cache_tokens_processed := metrics.total_cache_tokens }

/-- Source: `CacheEfficiencyAnalyzer.benchmarkCacheEfficiency`. -/
def benchmarkCacheEfficiency (cacheHitRate : ℚ) : CacheBenchmark :=
  let levelDescription : String × String :=
    if cacheHitRate < CACHE_BENCHMARKS_POOR.threshold then
      (CACHE_BENCHMARKS_POOR.label, CACHE_BENCHMARKS_POOR.description)
    else if cacheHitRate < CACHE_BENCHMARKS_AVERAGE.threshold then
      (CACHE_BENCHMARKS_AVERAGE.label, CACHE_BENCHMARKS_AVERAGE.description)
    else if cacheHitRate < CACHE_BENCHMARKS_GOOD.threshold then
      (CACHE_BENCHMARKS_GOOD.label, CACHE_BENCHMARKS_GOOD.description)
    else if cacheHitRate < CACHE_BENCHMARKS_EXCELLENT.threshold then
      (CACHE_BENCHMARKS_EXCELLENT.label, CACHE_BENCHMARKS_EXCELLENT.description)
    else
      (CACHE_BENCHMARKS_OUTSTANDING.label,
        CACHE_BENCHMARKS_OUTSTANDING.description)
  { level := levelDescription.1
    description := levelDescription.2
    cache_hit_rate := cacheHitRate
    threshold_met := cacheHitRate ≥ CACHE_BENCHMARKS_GOOD.threshold }

/-- Source: `CacheEfficiencyAnalyzer.generateFeedback`. The optional-chained
`costSummary?.period?.days || 30` maps a missing summary or 0 days to 30;
`costSummary?.cost?.total ? _ : 0` maps a missing or zero total to 0. -/
def generateFeedback (metrics : CacheMetrics) (benchmark : CacheBenchmark)
    (_savings : CacheSavings) (costSummary : Option CostSummary) :
    CacheFeedback :=
  let cacheHitRate := metrics.cache_hit_rate
  let days : ℚ := match costSummary with
    | some cs => if cs.period_days = 0 then 30 else cs.period_days
    | none => 30
  let monthlyCost : ℚ := match costSummary with
    | some cs => if cs.cost_total = 0 then 0 else cs.cost_total / days * 30
    | none => 0
  if benchmark.level == CACHE_BENCHMARKS_POOR.label then
    let potentialImprovement : ℚ := 25/100
    let potentialCacheIncrease :=
      cacheHitRate + (100 - cacheHitRate) * potentialImprovement
    let potentialSavings :=
      monthlyCost * (potentialCacheIncrease - cacheHitRate) / 100
    { summary := "⚠️ Your cache rate (" ++ qToFixed cacheHitRate 1 ++
        "%) is below average"
      tips :=
        [ "Work in longer continuous sessions (not short bursts)",
          "Keep related files open together",
          "Use @Files references instead of copying code into prompts",
          "Avoid frequently switching between unrelated projects",
          "Use Cursor" ++ apos ++ "s workspace context features" ]
      potential_savings := some
        { monthly := max 0 potentialSavings
          yearly := max 0 (potentialSavings * 12)
          improvement_percentage := potentialCacheIncrease - cacheHitRate } }
  else if benchmark.level == CACHE_BENCHMARKS_AVERAGE.label then
    let potentialImprovement : ℚ := 15/100
    let potentialCacheIncrease :=
      cacheHitRate + (100 - cacheHitRate) * potentialImprovement
    let potentialSavings :=
      monthlyCost * (potentialCacheIncrease - cacheHitRate) / 100
    { summary := "Your cache rate (" ++ qToFixed cacheHitRate 1 ++
        "%) is average - there" ++ apos ++ "s room for improvement"
      tips :=
        [ "Work in longer continuous sessions",
          "Keep related files open together",
          "Use @Files references instead of copying code" ]
      potential_savings := some
        { monthly := max 0 potentialSavings
          yearly := max 0 (potentialSavings * 12)
          improvement_percentage := potentialCacheIncrease - cacheHitRate } }
  else if benchmark.level == CACHE_BENCHMARKS_GOOD.label then
    { summary := "✅ Your cache rate (" ++ qToFixed cacheHitRate 1 ++
        "%) is good"
      tips :=
        [ "Continue working in focused sessions",
          "Keep related files open together" ]
      potential_savings := none }
  else
    { summary := "🎉 Your cache rate (" ++ qToFixed cacheHitRate 1 ++
        "%) is " ++ String.mk (lowerStr benchmark.level)
      tips :=
        [ "You" ++ apos ++ "re leveraging Cursor" ++ apos ++
            "s cache effectively",
          "Keep up the good work!" ]
      potential_savings := none }

/-- Source: `CacheEfficiencyAnalyzer.analyze`. -/
def analyze (records : Option (List UsageRecord))
    (costSummary : Option CostSummary) : Except String CacheAnalysis :=
  match records with
  | none => .error "Records array cannot be empty"
  | some [] => .error "Records array cannot be empty"
  | some rs =>
    let metrics := calculateCacheMetrics rs
    let savings := calculateCacheSavings rs metrics
    let benchmark := benchmarkCacheEfficiency metrics.cache_hit_rate
    .ok
      { metrics := metrics
        benchmark := benchmark
        savings := savings
        feedback := generateFeedback metrics benchmark savings costSummary }

end CacheEfficiencyAnalyzer

/-- A savings opportunity object
(`src/domain/analyzers/savings-opportunities.js`). The type-specific extra
fields of the heterogeneous JS objects are modelled as `Option`s. -/
structure Opportunity where
  type : String
  title : String
  savings_monthly : ℚ
  savings_yearly : ℚ
  difficulty : String
  impact : String
  action : String
  reasoning : String
  confidence : Option String := none
  migration_percentage : Option ℚ := none
  from_model : Option String := none
  to_model : Option String := none
  migratable_requests : Option ℚ := none
  current_error_rate : Option ℚ := none
  target_error_rate : Option ℚ := none
  errored_requests : Option ℚ := none
  total_requests : Option ℚ := none
  current_cache_rate : Option ℚ := none
  target_cache_rate : Option ℚ := none
  tips : Option (List String) := none
deriving DecidableEq

/-- The result object of `SavingsOpportunitiesAnalyzer.analyze`. -/
structure SavingsAnalysis where
  opportunities : List Opportunity
  total_potential_savings_monthly : ℚ
  total_potential_savings_yearly : ℚ
  total_opportunities_found : ℚ
deriving DecidableEq

namespace SavingsOpportunitiesAnalyzer

/-- Source: `identifyPlanOptimizationOpportunity`. -/
def identifyPlanOptimizationOpportunity
    (planAnalysis : PlanOptimizer.PlanAnalysis) (_costSummary : CostSummary) :
    Option Opportunity :=
  let recommendation := planAnalysis.recommendation
  if recommendation.savings_monthly ≤ 0 then none
  else if planAnalysis.current_plan.plan == recommendation.recommended_plan
    then none
  else
    let a0 := recommendation.actions.headD ""
    some
      { type := "plan_optimization"
        title := "Upgrade to " ++ recommendation.recommended_plan ++ " Plan"
        savings_monthly := recommendation.savings_monthly
        savings_yearly := recommendation.savings_yearly
        difficulty := "easy"
        impact := if recommendation.savings_monthly > 50 then "high"
          else "medium"
        action := if a0 == "" then
            "Switch to " ++ recommendation.recommended_plan ++ " plan"
          else a0
        reasoning := String.intercalate " " recommendation.reasoning
        confidence := some recommendation.confidence }

/-- Source: `identifyModelMigrationOpportunities`. -/
def identifyModelMigrationOpportunities
    (modelAnalysis : ModelEfficiencyAnalysis) (costSummary : CostSummary) :
    List Opportunity :=
  let rankings := modelAnalysis.rankings
  let expensiveModels := rankings.filter (fun m =>
    m.category == "premium" || m.cost_per_million_tokens > 500)
  let costEfficientModels := rankings.filter (fun m =>
    m.category == "cost_efficient" && m.cost_per_million_tokens < 100)
  match costEfficientModels with
  | [] => []
  | bestAlternative :: _ =>
    expensiveModels.filterMap (fun expensiveModel =>
      let migrationPercentage : ℚ := 30/100
      let migratableRequests :=
        jsFloor (expensiveModel.request_count * migrationPercentage)
      if migratableRequests = 0 then none
      else
        let monthlySavings :=
          (expensiveModel.average_cost_per_request -
            bestAlternative.average_cost_per_request) * migratableRequests
        let days :=
          if costSummary.period_days = 0 then 30 else costSummary.period_days
        let monthlySavingsScaled := monthlySavings / days * 30
        if monthlySavingsScaled < 5 then none
        else some
          { type := "model_migration"
            title := "Migrate " ++
              qToFixed (jsRound (migrationPercentage * 100)) 0 ++ "% of " ++
              expensiveModel.model ++ " → " ++ bestAlternative.model
            savings_monthly := monthlySavingsScaled
            savings_yearly := monthlySavingsScaled * 12
            difficulty := "medium"
            impact := if monthlySavingsScaled > 30 then "high"
              else if monthlySavingsScaled > 10 then "medium" else "low"
            action := "Use " ++ bestAlternative.model ++ " for: " ++
              bestAlternative.recommendation
            reasoning := expensiveModel.model ++ " costs $" ++
              qToFixed expensiveModel.cost_per_million_tokens 0 ++
              "/M tokens vs " ++ bestAlternative.model ++ " at $" ++
              qToFixed bestAlternative.cost_per_million_tokens 0 ++ "/M tokens"
            migration_percentage := some migrationPercentage
            from_model := some expensiveModel.model
            to_model := some bestAlternative.model
            migratable_requests := some migratableRequests })

/-- Source: `identifyErrorReductionOpportunity`. -/
def identifyErrorReductionOpportunity (records : List UsageRecord)
    (costAnalysis : CostAnalysis) : Option Opportunity :=
  let totalRequests : ℚ := records.length
  let erroredRecords := records.filter (fun r => r.isErrored)
  let erroredRequests : ℚ := erroredRecords.length
  let errorRate := erroredRequests / totalRequests * 100
  if errorRate ≤ 3 then none
  else
    let erroredCost := sumBy (fun r => r.cost) erroredRecords
    let days := if costAnalysis.summary.period_days = 0 then 30
      else costAnalysis.summary.period_days
    let monthlyErroredCost := erroredCost / days * 30
    let targetErrorRate : ℚ := 2
    let targetErrorCost := monthlyErroredCost * (targetErrorRate / errorRate)
    let potentialSavings := monthlyErroredCost - targetErrorCost
    some
      { type := "error_reduction"
        title := "Reduce error rate from " ++ qToFixed errorRate 1 ++
          "% to 2%"
        savings_monthly := max 0 potentialSavings
        savings_yearly := max 0 (potentialSavings * 12)
        difficulty := "medium"
        impact := if errorRate > 10 then "medium" else "low"
        action := "Review failed requests to identify patterns, break large prompts into smaller chunks"
        reasoning := "You" ++ apos ++ "re spending $" ++
          qToFixed monthlyErroredCost 2 ++ "/month on errored requests (" ++
          qToFixed errorRate 1 ++ "% error rate)"
        current_error_rate := some errorRate
        target_error_rate := some targetErrorRate
        errored_requests := some erroredRequests
        total_requests := some totalRequests }

/-- Source: `identifyCacheOptimizationOpportunity`. -/
def identifyCacheOptimizationOpportunity (cacheAnalysis : CacheAnalysis)
    (costSummary : CostSummary) : Option Opportunity :=
  let cacheHitRate := cacheAnalysis.metrics.cache_hit_rate
  if cacheHitRate ≥ 75 then none
  else
    let feedback := cacheAnalysis.feedback
    let potentialSavings := match feedback.potential_savings with
      | some ps => ps.monthly
      | none => 0
    let estimatedSavings :=
      if potentialSavings = 0 then
        let monthlyCost := if costSummary.cost_total = 0 then 0
          else costSummary.cost_total /
            (if costSummary.period_days = 0 then 30
              else costSummary.period_days) * 30
        let improvementPotential := 75 - cacheHitRate
        monthlyCost * (improvementPotential / 100) * (1/2)
      else potentialSavings
    some
      { type := "cache_optimization"
        title := "Improve cache rate from " ++ qToFixed cacheHitRate 1 ++
          "% to 75%+"
        savings_monthly := max 0 estimatedSavings
        savings_yearly := max 0 (estimatedSavings * 12)
        difficulty := "medium"
        impact := if cacheHitRate < 60 then "medium" else "low"
        action := String.intercalate "; " feedback.tips
        reasoning := "Your cache rate (" ++ qToFixed cacheHitRate 1 ++
          "%) is below the recommended 75% threshold"
        current_cache_rate := some cacheHitRate
        target_cache_rate := some 75
        tips := some feedback.tips }

/-- Source: `SavingsOpportunitiesAnalyzer.analyze`: re-derives the cost, plan,
model and cache analyses, collects the candidate opportunities, ranks
them by monthly savings (stable descending sort), keeps the top 5 and
totals the kept ones. -/
def analyze (records : Option (List UsageRecord)) :
    Except String SavingsAnalysis :=
  match records with
  | none => .error "Records array cannot be empty"
  | some [] => .error "Records array cannot be empty"
  | some rs => do
    let costAnalysis ← CostAnalyzer.analyze (some rs)
    let planAnalysis ←
      PlanOptimizer.analyze (some rs) (some costAnalysis.summary)
    let modelAnalysis ← ModelEfficiencyAnalyzer.analyze (some rs)
    let cacheAnalysis ←
      CacheEfficiencyAnalyzer.analyze (some rs) (some costAnalysis.summary)
    let opportunities :=
      (match identifyPlanOptimizationOpportunity planAnalysis
          costAnalysis.summary with
        | some o => [o]
        | none => []) ++
      identifyModelMigrationOpportunities modelAnalysis costAnalysis.summary ++
      (match identifyErrorReductionOpportunity rs costAnalysis with
        | some o => [o]
        | none => []) ++
      (match identifyCacheOptimizationOpportunity cacheAnalysis
          costAnalysis.summary with
        | some o => [o]
        | none => [])
    let sorted := List.insertionSort
      (fun a b : Opportunity => b.savings_monthly ≤ a.savings_monthly)
      opportunities
    let topOpportunities := sorted.take 5
    let totalPotentialSavings :=
      sumBy (fun o => o.savings_monthly) topOpportunities
    .ok
      { opportunities := topOpportunities
        total_potential_savings_monthly := totalPotentialSavings
        total_potential_savings_yearly := totalPotentialSavings * 12
        total_opportunities_found := opportunities.length }

end SavingsOpportunitiesAnalyzer

/-- The numeric value of an ASCII digit character, if it is one. -/
def digitVal (c : Char) : Option ℕ :=
  if 48 ≤ c.toNat ∧ c.toNat ≤ 57 then some (c.toNat - 48) else none

/-- Gregorian leap year test. -/
def isLeapYear (y : ℤ) : Bool :=
  (y % 4 == 0 && y % 100 != 0) || y % 400 == 0

/-- Days in a Gregorian month. -/
def daysInMonth (y : ℤ) (m : ℕ) : ℕ :=
  if m = 2 then (if isLeapYear y then 29 else 28)
  else if m = 4 ∨ m = 6 ∨ m = 9 ∨ m = 11 then 30
  else 31

/-- Source: `new Date(s)` for the ISO UTC strings this program handles: the civil
date `(year, month, day)` and the UTC hour. A string that does not parse
as a valid date yields `none`, matching the JS Invalid Date that makes the
pattern analyzer skip the record. -/
def parseISODate (s : String) : Option (ℤ × ℕ × ℕ × ℕ) :=
  match s.toList with
  | y1 :: y2 :: y3 :: y4 :: '-' :: m1 :: m2 :: '-' :: d1 :: d2 :: rest =>
    match digitVal y1, digitVal y2, digitVal y3, digitVal y4,
        digitVal m1, digitVal m2, digitVal d1, digitVal d2 with
    | some a, some b, some c, some d, some e, some f, some g, some h =>
      let year : ℤ := ((a * 1000 + b * 100 + c * 10 + d : ℕ) : ℤ)
      let month := e * 10 + f
      let day := g * 10 + h
      let hour? : Option ℕ := match rest with
        | [] => some 0
        | 'T' :: h1 :: h2 :: _ =>
          match digitVal h1, digitVal h2 with
          | some x, some y => some (x * 10 + y)
          | _, _ => none
        | _ => none
      match hour? with
      | none => none
      | some hour =>
        if 1 ≤ month ∧ month ≤ 12 ∧ 1 ≤ day ∧ day ≤ daysInMonth year month ∧
            hour ≤ 23 then
          some (year, month, day, hour)
        else none
    | _, _, _, _, _, _, _, _ => none
  | _ => none

/-- Days since 1970-01-01 of a civil date (Gregorian calendar). -/
def daysFromCivil (y : ℤ) (m d : ℕ) : ℤ :=
  let y := if m ≤ 2 then y - 1 else y
  let era := y / 400
  let yoe := y - era * 400
  let mp : ℤ := if m > 2 then (m : ℤ) - 3 else (m : ℤ) + 9
  let doy := (153 * mp + 2) / 5 + (d : ℤ) - 1
  let doe := yoe * 365 + yoe / 4 - yoe / 100 + doy
  era * 146097 + doe - 719468

/-- Source: `date.getUTCDay()`: 0 = Sunday .. 6 = Saturday. -/
def civilDayOfWeek (y : ℤ) (m d : ℕ) : ℕ :=
  ((daysFromCivil y m d + 4) % 7).toNat

/-- The UTC hour of the timestamp of a record, when it parses. -/
def recordHour (r : UsageRecord) : Option ℕ :=
  (parseISODate r.date).map (fun p => p.2.2.2)

/-- The UTC day of week of the timestamp of a record, when it parses. -/
def recordDayOfWeek (r : UsageRecord) : Option ℕ :=
  (parseISODate r.date).map (fun p => civilDayOfWeek p.1 p.2.1 p.2.2.1)

/-- An entry of the hourly distribution
(`src/domain/analyzers/usage-patterns.js`). -/
structure HourlyEntry where
  hour : ℚ
  requests : ℚ
  cost : ℚ
  percentage : ℚ
  cost_percentage : ℚ
deriving DecidableEq

/-- An entry of the day-of-week distribution. -/
structure DailyDistEntry where
  day : ℚ
  dayName : String
  requests : ℚ
  cost : ℚ
  percentage : ℚ
  cost_percentage : ℚ
deriving DecidableEq

/-- An entry of `peak_hours`. -/
structure PeakHour where
  hour : ℚ
  requests : ℚ
  cost : ℚ
  percentage : ℚ
deriving DecidableEq

/-- A detected sprint day. -/
structure SprintDay where
  date : String
  cost : ℚ
  requests : ℚ
  deviation : ℚ
  deviation_percentage : ℚ
deriving DecidableEq

/-- The `WorkStyle` entity (`src/domain/entities/WorkStyle.js`). -/
structure WorkStyle where
  primary_style : String
  styles : List String
  characteristics : List String
  evening_percentage : ℚ
  weekend_percentage : ℚ
  usage_consistency : String
deriving DecidableEq

/-- Source: `WorkStyle.getDescription`. -/
def WorkStyle.getDescription (w : WorkStyle) : String :=
  if w.primary_style == "night_coder" then
    "You primarily code during evening hours (18h-23h)"
  else if w.primary_style == "weekend_warrior" then
    "You do significant work on weekends"
  else if w.primary_style == "sprint_worker" then
    "Your usage comes in bursts with high variance"
  else if w.primary_style == "steady_user" then
    "You maintain consistent daily usage patterns"
  else "Regular usage pattern"

/-- Source: `WorkStyle.isNightCoder`. -/
def WorkStyle.isNightCoder (w : WorkStyle) : Bool :=
  w.styles.contains "night_coder"

/-- Source: `WorkStyle.isWeekendWarrior`. -/
def WorkStyle.isWeekendWarrior (w : WorkStyle) : Bool :=
  w.styles.contains "weekend_warrior"

/-- Source: `WorkStyle.isSprintWorker`. -/
def WorkStyle.isSprintWorker (w : WorkStyle) : Bool :=
  w.styles.contains "sprint_worker"

/-- Source: `WorkStyle.isSteadyUser`. -/
def WorkStyle.isSteadyUser (w : WorkStyle) : Bool :=
  w.styles.contains "steady_user" || w.usage_consistency == "steady"

/-- Source: `WorkStyle.getRecommendations`. -/
def WorkStyle.getRecommendations (w : WorkStyle) : List String :=
  let recommendations :=
    (if w.isNightCoder then
      [ "Consider optimizing your workflow for evening peak hours",
        "Ensure your plan supports your evening usage patterns" ]
    else []) ++
    (if w.isWeekendWarrior then
      [ "Your weekend usage (" ++ qToFixed w.weekend_percentage 1 ++
          "%) suggests steady investment in Pro/Ultra",
        "Ensure your plan aligns with weekend-heavy usage" ]
    else []) ++
    (if w.isSprintWorker then
      [ "Consider timing sprints with billing cycle start to maximize plan value",
        "Your bursty pattern may benefit from Ultra plan for unlimited capacity" ]
    else []) ++
    (if w.isSteadyUser then
      [ "Your consistent usage pattern justifies Pro/Ultra investment for predictable costs",
        "Consider fixed-cost plans to avoid overage charges" ]
    else [])
  if recommendations.isEmpty then
    ["Your usage patterns are consistent and efficient"]
  else recommendations

/-- Source: `WorkStyle.getCharacteristicsSummary`. -/
def WorkStyle.getCharacteristicsSummary (w : WorkStyle) : String :=
  if w.characteristics.isEmpty then "Regular usage pattern"
  else String.intercalate ". " w.characteristics

/-- Source: `WorkStyle.toObject()`. -/
structure WorkStyleObj where
  primary_style : String
  styles : List String
  characteristics : List String
  description : String
  evening_percentage : ℚ
  weekend_percentage : ℚ
  usage_consistency : String
  is_night_coder : Bool
  is_weekend_warrior : Bool
  is_sprint_worker : Bool
  is_steady_user : Bool
  recommendations : List String
  characteristics_summary : String
deriving DecidableEq

/-- Source: `WorkStyle.toObject`. -/
def WorkStyle.toObject (w : WorkStyle) : WorkStyleObj :=
  { primary_style := w.primary_style
    styles := w.styles
    characteristics := w.characteristics
    description := w.getDescription
    evening_percentage := w.evening_percentage
    weekend_percentage := w.weekend_percentage
    usage_consistency := w.usage_consistency
    is_night_coder := w.isNightCoder
    is_weekend_warrior := w.isWeekendWarrior
    is_sprint_worker := w.isSprintWorker
    is_steady_user := w.isSteadyUser
    recommendations := w.getRecommendations
    characteristics_summary := w.getCharacteristicsSummary }

/-- A pattern recommendation object. -/
structure PatternRecommendation where
  type : String
  title : String
  message : String
  priority : String
  action : Option String := none
  sprint_date : Option String := none
  sprint_cost : Option ℚ := none
deriving DecidableEq

/-- The result object of `UsagePatternAnalyzer.analyze`. -/
structure PatternAnalysis where
  hourly_distribution : List HourlyEntry
  daily_distribution : List DailyDistEntry
  peak_hours : List PeakHour
  sprints : List SprintDay
  work_style : WorkStyleObj
  recommendations : List PatternRecommendation
deriving DecidableEq

namespace UsagePatternAnalyzer

/-- Source: `UsagePatternAnalyzer.calculateHourlyDistribution`: bucket counts and
costs per UTC hour; records with unparseable dates are skipped. -/
def calculateHourlyDistribution (records : List UsageRecord) :
    List HourlyEntry :=
  let totalRequests : ℚ := records.length
  let totalCost := sumBy (fun r => r.cost) records
  (List.range 24).map (fun h =>
    let bucket := records.filter (fun r => recordHour r == some h)
    let requests : ℚ := bucket.length
    let cost := sumBy (fun r => r.cost) bucket
    { hour := (h : ℚ)
      requests := requests
      cost := cost
      percentage :=
        if totalRequests > 0 then requests / totalRequests * 100 else 0
      cost_percentage := if totalCost > 0 then cost / totalCost * 100 else 0 })

/-- The `dayNames` array. -/
def dayNames : List String :=
  ["Sunday", "Monday", "Tuesday", "Wednesday", "Thursday", "Friday",
   "Saturday"]

/-- Source: `UsagePatternAnalyzer.calculateDailyDistribution`. -/
def calculateDailyDistribution (records : List UsageRecord) :
    List DailyDistEntry :=
  let totalRequests : ℚ := records.length
  let totalCost := sumBy (fun r => r.cost) records
  (List.range 7).map (fun d =>
    let bucket := records.filter (fun r => recordDayOfWeek r == some d)
    let requests : ℚ := bucket.length
    let cost := sumBy (fun r => r.cost) bucket
    { day := (d : ℚ)
      dayName := dayNames.getD d ""
      requests := requests
      cost := cost
      percentage :=
        if totalRequests > 0 then requests / totalRequests * 100 else 0
      cost_percentage := if totalCost > 0 then cost / totalCost * 100 else 0 })

/-- Source: `UsagePatternAnalyzer.identifyPeakHours`: stable sort by request count
descending, top 3. -/
def identifyPeakHours (hourlyDistribution : List HourlyEntry) :
    List PeakHour :=
  let sorted := List.insertionSort
    (fun a b : HourlyEntry => b.requests ≤ a.requests) hourlyDistribution
  (sorted.take 3).map (fun data =>
    { hour := data.hour, requests := data.requests, cost := data.cost,
      percentage := data.percentage })

/-- Source: `cost > mean + 2 * sqrt(variance)`, expressed without square roots:
for `variance ≥ 0` this holds iff the cost exceeds the mean and the
squared deviation exceeds `4 * variance`. -/
def exceedsTwoSigma (cost mean variance : ℚ) : Bool :=
  decide (mean < cost) && decide (4 * variance < (cost - mean) ^ 2)

/-- The per-day aggregation `(date, cost, requests)` of `detectSprints`,
in first-seen key order; records with unparseable dates are skipped. -/
def sprintDayGroups (records : List UsageRecord) : List (String × ℚ × ℚ) :=
  let valid := records.filter (fun r => (parseISODate r.date).isSome)
  let keys := firstSeen (valid.map (fun r => r.getDateOnly))
  keys.map (fun date =>
    let dateRecords := valid.filter (fun r => r.getDateOnly == date)
    (date, sumBy (fun r => r.cost) dateRecords, (dateRecords.length : ℚ)))

/-- Source: `UsagePatternAnalyzer.detectSprints`. -/
def detectSprints (records : List UsageRecord)
    (_costSummary : CostSummary) : List SprintDay :=
  let days := sprintDayGroups records
  let daysCount : ℚ := days.length
  if days.isEmpty then []
  else
    let avgDailyCost := sumBy (fun d => d.2.1) days / daysCount
    let variance :=
      sumBy (fun d => (d.2.1 - avgDailyCost) ^ 2) days / daysCount
    let flagged := days.filter (fun d =>
      exceedsTwoSigma d.2.1 avgDailyCost variance)
    let sorted := List.insertionSort
      (fun a b : String × ℚ × ℚ => b.2.1 ≤ a.2.1) flagged
    (sorted.take 5).map (fun d =>
      { date := d.1
        cost := d.2.1
        requests := d.2.2
        deviation := d.2.1 - avgDailyCost
        deviation_percentage :=
          if avgDailyCost > 0 then
            (d.2.1 - avgDailyCost) / avgDailyCost * 100
          else 0 })

/-- Source: `UsagePatternAnalyzer.getDailyCosts`. -/
def getDailyCosts (records : List UsageRecord) : List ℚ :=
  (sprintDayGroups records).map (fun d => d.2.1)

/-- Source: `UsagePatternAnalyzer.calculateVariance`. -/
def calculateVariance (values : List ℚ) : ℚ :=
  if values.isEmpty then 0
  else
    let mean := sumBy (fun v => v) values / values.length
    sumBy (fun v => (v - mean) ^ 2) values / values.length

/-- Source: `sqrt(variance) / mean > 1/2` without square roots (the coefficient of
variation is defined as 0 when the mean is not positive). -/
def cvGtHalf (variance mean : ℚ) : Bool :=
  decide (0 < mean) && decide (mean ^ 2 < 4 * variance)

/-- Source: `sqrt(variance) / mean < 3/10` without square roots (true when the
mean is not positive, since the coefficient defaults to 0). -/
def cvLtP3 (variance mean : ℚ) : Bool :=
  if 0 < mean then decide (100 * variance < 9 * mean ^ 2) else true

/-- Source: `sqrt(variance) / mean < 1/2` without square roots. -/
def cvLtP5 (variance mean : ℚ) : Bool :=
  if 0 < mean then decide (4 * variance < mean ^ 2) else true

/-- Source: `UsagePatternAnalyzer.identifyWorkStyle`. -/
def identifyWorkStyle (hourlyDistribution : List HourlyEntry)
    (dailyDistribution : List DailyDistEntry) (records : List UsageRecord)
    (costSummary : CostSummary) : WorkStyle :=
  let eveningHours := hourlyDistribution.filter (fun h =>
    h.hour ≥ 18 ∧ h.hour ≤ 23)
  let eveningPercentage := sumBy (fun h => h.percentage) eveningHours
  let weekendDays := dailyDistribution.filter (fun d =>
    d.day = 0 ∨ d.day = 6)
  let weekendPercentage := sumBy (fun d => d.percentage) weekendDays
  let days := if costSummary.period_days = 0 then 1
    else costSummary.period_days
  let dailyCosts := getDailyCosts records
  let variance := calculateVariance dailyCosts
  let avgDailyCost := sumBy (fun c => c) dailyCosts / dailyCosts.length
  let stylesChars : List (String × String) :=
    (if eveningPercentage > 40 then
      [("night_coder", "Peak usage in evening hours (18h-23h)")] else []) ++
    (if weekendPercentage > 20 then
      [("weekend_warrior",
        "High weekend usage (" ++ qToFixed weekendPercentage 1 ++
          "% on weekends)")] else []) ++
    (if cvGtHalf variance avgDailyCost ∧ days > 7 then
      [("sprint_worker", "Usage in bursts with high variance")] else []) ++
    (if cvLtP3 variance avgDailyCost ∧ days > 7 then
      [("steady_user", "Consistent daily usage pattern")] else [])
  let stylesChars := if stylesChars.isEmpty then
    [("steady_user", "Regular usage pattern")] else stylesChars
  { primary_style := (stylesChars.headD ("steady_user", "")).1
    styles := stylesChars.map (fun p => p.1)
    characteristics := stylesChars.map (fun p => p.2)
    evening_percentage := eveningPercentage
    weekend_percentage := weekendPercentage
    usage_consistency :=
      if cvLtP3 variance avgDailyCost then "steady"
      else if cvLtP5 variance avgDailyCost then "moderate"
      else "bursty" }

/-- Source: `UsagePatternAnalyzer.generatePatternRecommendations`. -/
def generatePatternRecommendations (workStyle : WorkStyle)
    (peakHours : List PeakHour) (sprints : List SprintDay)
    (_dailyDistribution : List DailyDistEntry)
    (_costSummary : CostSummary) : List PatternRecommendation :=
  let styles := workStyle.styles
  (if styles.contains "night_coder" then
    [{ type := "work_pattern"
       title := "Night Coding Pattern Detected"
       message := "You" ++ apos ++
         "re most active during evening hours (" ++
         (match peakHours.head? with
          | some p => if p.hour = 0 then "evening" else qToFixed p.hour 0
          | none => "evening") ++
         "h). Consider optimizing your workflow for these peak hours."
       priority := "low" : PatternRecommendation }]
  else []) ++
  (if styles.contains "weekend_warrior" then
    [{ type := "work_pattern"
       title := "Weekend Warrior Pattern"
       message := "You use Cursor heavily on weekends (" ++
         qToFixed workStyle.weekend_percentage 1 ++
         "% of usage). Your steady usage justifies Pro/Ultra investment."
       priority := "low" : PatternRecommendation }]
  else []) ++
  (if styles.contains "sprint_worker" then
    [{ type := "optimization"
       title := "Sprint Worker Pattern"
       message := "Your usage comes in bursts. Consider timing sprints with billing cycle start to maximize plan value."
       priority := "medium"
       action := some "Plan your intensive coding sessions at the start of your billing cycle" :
         PatternRecommendation }]
  else []) ++
  (if styles.contains "steady_user" &&
      workStyle.primary_style == "steady_user" then
    [{ type := "optimization"
       title := "Steady Usage Pattern"
       message := "Your consistent daily usage pattern justifies Pro/Ultra investment for predictable costs."
       priority := "low" : PatternRecommendation }]
  else []) ++
  (match sprints.head? with
   | some topSprint =>
     [{ type := "sprint"
        title := "Sprint Detected: " ++ topSprint.date
        message := "Unusually high activity on " ++ topSprint.date ++
          " (" ++ qToFixed topSprint.deviation_percentage 0 ++
          "% above average). This suggests intensive coding sessions."
        priority := "low"
        sprint_date := some topSprint.date
        sprint_cost := some topSprint.cost : PatternRecommendation }]
   | none => [])

/-- Source: `UsagePatternAnalyzer.analyze`. -/
def analyze (records : Option (List UsageRecord))
    (costSummary : CostSummary) : Except String PatternAnalysis :=
  match records with
  | none => .error "Records array cannot be empty"
  | some [] => .error "Records array cannot be empty"
  | some rs =>
    let hourlyDistribution := calculateHourlyDistribution rs
    let dailyDistribution := calculateDailyDistribution rs
    let peakHours := identifyPeakHours hourlyDistribution
    let sprints := detectSprints rs costSummary
    let workStyle :=
      identifyWorkStyle hourlyDistribution dailyDistribution rs costSummary
    .ok
      { hourly_distribution := hourlyDistribution
        daily_distribution := dailyDistribution
        peak_hours := peakHours
        sprints := sprints
        work_style := workStyle.toObject
        recommendations :=
          generatePatternRecommendations workStyle peakHours sprints
            dailyDistribution costSummary }

end UsagePatternAnalyzer

/-- The `metadata` object of the engine result
(`src/domain/analyzer.js`). `generated_at` is the injected clock value. -/
structure EngineMetadata where
  generated_at : String
  total_records : ℚ
  analysis_version : String
deriving DecidableEq

/-- The top-level `summary` object of the engine result, flattened. -/
structure EngineSummary where
  period_start : String
  period_end : String
  period_days : ℚ
  cost_total : ℚ
  cost_daily_average : ℚ
  cost_by_type_included : ℚ
  cost_by_type_on_demand : ℚ
  cost_by_type_errored : ℚ
  usage_total_requests : ℚ
  usage_requests_per_day : ℚ
  usage_total_tokens : ℚ
  usage_cache_efficiency : ℚ
deriving DecidableEq

/-- The `cost_analysis` section of the engine result. -/
structure EngineCostSection where
  breakdown_by_model : List ModelBreakdownEntry
  breakdown_by_type : TypeBreakdown
  daily_costs : List DailyUsageObj
  top_expensive_requests : List ExpensiveRequestEntry
  top_expensive_days : List ExpensiveDayEntry
  most_expensive_model : Option ModelBreakdownEntry
deriving DecidableEq

/-- The `plan_recommendation` section of the engine result. -/
structure EnginePlanSection where
  current_plan : String
  current_monthly_cost : ℚ
  recommended_plan : String
  recommended_cost : ℚ
  savings_monthly : ℚ
  savings_yearly : ℚ
  confidence : String
  reasoning : List String
  actions : List String
deriving DecidableEq

/-- The `opportunities` section of the engine result. -/
structure EngineOpportunitiesSection where
  list : List Opportunity
  total_potential_savings_monthly : ℚ
  total_potential_savings_yearly : ℚ
deriving DecidableEq

/-- The complete `AnalysisResult` assembled by `AnalysisEngine.analyze`. -/
structure AnalysisResult where
  metadata : EngineMetadata
  summary : EngineSummary
  cost_analysis : EngineCostSection
  model_efficiency : ModelEfficiencyAnalysis
  plan_recommendation : EnginePlanSection
  cache_efficiency : CacheAnalysis
  opportunities : EngineOpportunitiesSection
  patterns : PatternAnalysis
deriving DecidableEq

/-- Source: `AnalysisEngine.analyze` (`src/domain/analyzer.js`): checks for a
null/empty record list, runs the six analyzers in source order — any
sub-analyzer failure propagates, nothing is caught — and assembles the
nested result. The impure `new Date().toISOString()` timestamp is the
injected `now` argument. -/
def engineAnalyze (now : String) (records : Option (List UsageRecord)) :
    Except String AnalysisResult :=
  match records with
  | none => .error "Records array cannot be empty"
  | some [] => .error "Records array cannot be empty"
  | some rs => do
    let costAnalysis ← CostAnalyzer.analyze (some rs)
    let modelAnalysis ← ModelEfficiencyAnalyzer.analyze (some rs)
    let planAnalysis ←
      PlanOptimizer.analyze (some rs) (some costAnalysis.summary)
    let cacheAnalysis ←
      CacheEfficiencyAnalyzer.analyze (some rs) (some costAnalysis.summary)
    let savingsAnalysis ← SavingsOpportunitiesAnalyzer.analyze (some rs)
    let patternAnalysis ←
      UsagePatternAnalyzer.analyze (some rs) costAnalysis.summary
    .ok
      { metadata :=
          { generated_at := now
            total_records := (rs.length : ℚ)
            analysis_version := "1.0" }
        summary :=
          { period_start := costAnalysis.summary.period_start
            period_end := costAnalysis.summary.period_end
            period_days := costAnalysis.summary.period_days
            cost_total := costAnalysis.summary.cost_total
            cost_daily_average := costAnalysis.summary.cost_daily_average
            cost_by_type_included :=
              costAnalysis.breakdown_by_type.included.cost
            cost_by_type_on_demand :=
              costAnalysis.breakdown_by_type.on_demand.cost
            cost_by_type_errored := costAnalysis.breakdown_by_type.errored.cost
            usage_total_requests := costAnalysis.summary.usage_total_requests
            usage_requests_per_day :=
              costAnalysis.summary.usage_requests_per_day
            usage_total_tokens := costAnalysis.summary.usage_total_tokens
            usage_cache_efficiency :=
              cacheAnalysis.metrics.overall_cache_efficiency }
        cost_analysis :=
          { breakdown_by_model := costAnalysis.breakdown_by_model
            breakdown_by_type := costAnalysis.breakdown_by_type
            daily_costs := costAnalysis.daily_costs
            top_expensive_requests := costAnalysis.top_expensive_requests
            top_expensive_days := costAnalysis.top_expensive_days
            most_expensive_model := costAnalysis.most_expensive_model }
        model_efficiency := modelAnalysis
        plan_recommendation :=
          { current_plan := planAnalysis.current_plan.plan
            current_monthly_cost := planAnalysis.actual_monthly_cost
            recommended_plan := planAnalysis.recommendation.recommended_plan
            recommended_cost := planAnalysis.recommendation.recommended_cost
            savings_monthly := planAnalysis.recommendation.savings_monthly
            savings_yearly := planAnalysis.recommendation.savings_yearly
            confidence := planAnalysis.recommendation.confidence
            reasoning := planAnalysis.recommendation.reasoning
            actions := planAnalysis.recommendation.actions }
        cache_efficiency := cacheAnalysis
        opportunities :=
          { list := savingsAnalysis.opportunities
            total_potential_savings_monthly :=
              savingsAnalysis.total_potential_savings_monthly
            total_potential_savings_yearly :=
              savingsAnalysis.total_potential_savings_yearly }
        patterns := patternAnalysis }

/-! ### Shared lemmas -/

theorem sumBy_nonneg (f : α → ℚ) (l : List α) (h : ∀ x ∈ l, 0 ≤ f x) :
    0 ≤ sumBy f l := by
  rw [sumBy_eq]
  exact List.sum_nonneg (by
    intro q hq
    obtain ⟨x, hx, rfl⟩ := List.mem_map.mp hq
    exact h x hx)

theorem sumBy_eq_zero (f : α → ℚ) (l : List α) (h : ∀ x ∈ l, f x = 0) :
    sumBy f l = 0 := by
  rw [sumBy_eq]
  exact List.sum_eq_zero (by
    intro q hq
    obtain ⟨x, hx, rfl⟩ := List.mem_map.mp hq
    exact h x hx)

theorem foldlFirstSeen_nodup (l : List String) (acc : List String)
    (h : acc.Nodup) :
    (l.foldl (fun acc x => if x ∈ acc then acc else acc ++ [x]) acc).Nodup := by
  induction l generalizing acc with
  | nil => simpa using h
  | cons y t ih =>
    rw [List.foldl_cons]
    by_cases hy : y ∈ acc
    · simpa [hy] using ih acc h
    · have hn : (acc ++ [y]).Nodup := by
        simp [List.nodup_append, h, hy]
      simpa [hy] using ih _ hn

theorem firstSeen_nodup (l : List String) : (firstSeen l).Nodup :=
  foldlFirstSeen_nodup l [] (by simp)

theorem foldlFirstSeen_mem (l acc : List String) (x : String)
    (h : x ∈ l ∨ x ∈ acc) :
    x ∈ l.foldl (fun acc x => if x ∈ acc then acc else acc ++ [x]) acc := by
  induction l generalizing acc with
  | nil => simpa using h.resolve_left (List.not_mem_nil x)
  | cons y t ih =>
    rw [List.foldl_cons]
    apply ih
    rcases h with hl | hacc
    · rcases List.mem_cons.mp hl with rfl | ht
      · right
        by_cases hy : x ∈ acc <;> simp [hy]
      · left
        exact ht
    · right
      by_cases hy : y ∈ acc <;> simp [hy, hacc]

theorem firstSeen_mem_of_mem {l : List String} {x : String} (h : x ∈ l) :
    x ∈ firstSeen l :=
  foldlFirstSeen_mem l [] x (Or.inl h)

theorem sum_ite_of_not_mem (x : String) (c : ℚ) (keys : List String)
    (hx : x ∉ keys) :
    (keys.map (fun m => if x = m then c else 0)).sum = 0 := by
  induction keys with
  | nil => simp
  | cons k ks ih =>
    have hxk : ¬(x = k) := fun h => hx (h ▸ List.mem_cons_self _ _)
    have hxs : x ∉ ks := fun h => hx (List.mem_cons_of_mem _ h)
    simp [List.map_cons, List.sum_cons, hxk, ih hxs]

theorem sum_ite_of_mem (x : String) (c : ℚ) (keys : List String)
    (hnd : keys.Nodup) (hx : x ∈ keys) :
    (keys.map (fun m => if x = m then c else 0)).sum = c := by
  induction keys with
  | nil => cases hx
  | cons k ks ih =>
    obtain ⟨hk, hks⟩ := List.nodup_cons.mp hnd
    rcases List.mem_cons.mp hx with rfl | hmem
    · simp [List.map_cons, List.sum_cons, sum_ite_of_not_mem x c ks hk]
    · have hxk : ¬(x = k) := fun h => hk (h ▸ hmem)
      simp [List.map_cons, List.sum_cons, hxk, ih hks hmem]

theorem sum_map_add_q {β : Type} (l : List β) (f g : β → ℚ) :
    (l.map (fun x => f x + g x)).sum = (l.map f).sum + (l.map g).sum := by
  induction l with
  | nil => simp
  | cons a t ih => simp [List.map_cons, List.sum_cons, ih]; ring

/-- Summing a cost over the groups of a complete, duplicate-free key list
recovers the total: the partition property of `groupBy`-style loops. -/
theorem sum_over_groups {β : Type} (key : β → String) (cost : β → ℚ)
    (keys : List String) (hnd : keys.Nodup) (records : List β)
    (hcov : ∀ r ∈ records, key r ∈ keys) :
    (keys.map (fun m =>
      ((records.filter (fun r => key r == m)).map cost).sum)).sum =
    (records.map cost).sum := by
  induction records with
  | nil => simp
  | cons r t ih =>
    have hcovt : ∀ x ∈ t, key x ∈ keys := fun x hx =>
      hcov x (List.mem_cons_of_mem _ hx)
    have hr : key r ∈ keys := hcov r (List.mem_cons_self _ _)
    have hsplit : ∀ m : String,
        ((List.filter (fun x => key x == m) (r :: t)).map cost).sum =
        (if key r = m then cost r else 0) +
          ((t.filter (fun x => key x == m)).map cost).sum := by
      intro m
      by_cases h : key r = m
      · simp [List.filter_cons, h]
      · simp [List.filter_cons, h]
    calc (keys.map (fun m =>
            ((List.filter (fun x => key x == m) (r :: t)).map cost).sum)).sum
        = (keys.map (fun m => (if key r = m then cost r else 0) +
            ((t.filter (fun x => key x == m)).map cost).sum)).sum := by
          exact congrArg List.sum (List.map_congr_left (fun m _ => hsplit m))
      _ = (keys.map (fun m => if key r = m then cost r else 0)).sum +
            (keys.map (fun m =>
              ((t.filter (fun x => key x == m)).map cost).sum)).sum := by
          exact sum_map_add_q keys _ _
      _ = cost r + (t.map cost).sum := by
          rw [sum_ite_of_mem (key r) (cost r) keys hnd hr, ih hcovt]
      _ = ((r :: t).map cost).sum := by simp

theorem sum_map_insertionSort {α : Type} (r : α → α → Prop)
    [DecidableRel r] (l : List α) (f : α → ℚ) :
    ((List.insertionSort r l).map f).sum = (l.map f).sum :=
  List.Perm.sum_eq (List.Perm.map f (List.perm_insertionSort r l))

theorem sum_map_div_mul {β : Type} (l : List β) (f : β → ℚ) (t c : ℚ) :
    (l.map (fun x => f x / t * c)).sum = (l.map f).sum / t * c := by
  induction l with
  | nil => simp
  | cons a s ih =>
    simp only [List.map_cons, List.sum_cons, ih]
    ring

/-- The per-model breakdown percentages always sum to exactly 100 when the
total cost is positive: the model groups partition the records, so the
group costs sum to the total. (This is the half of the percentage
invariant that the code does satisfy.) -/
theorem breakdown_by_model_percentage_sum (records : List UsageRecord)
    (hpos : 0 < sumBy (fun r => r.cost) records) :
    ((CostAnalyzer.calculateBreakdownByModel records).map
      (fun e => e.percentage)).sum = 100 := by
  have hne : sumBy (fun r => r.cost) records ≠ 0 := ne_of_gt hpos
  unfold CostAnalyzer.calculateBreakdownByModel
  simp only []
  rw [sum_map_insertionSort]
  rw [List.map_map]
  have hcong : ∀ m ∈ firstSeen (records.map (fun r => r.model)),
      ((fun e : ModelBreakdownEntry => e.percentage) ∘ (fun m =>
        let modelRecords := records.filter (fun r => r.model == m)
        let mu := ModelUsage.ofRecords m modelRecords
        ({ model := mu.model
           total_cost := mu.totalCost
           request_count := mu.requestCount
           percentage := mu.getPercentageOfTotal
             (sumBy (fun r => r.cost) records) } : ModelBreakdownEntry))) m =
      ((records.filter (fun r => r.model == m)).map (fun r => r.cost)).sum /
        sumBy (fun r => r.cost) records * 100 := by
    intro m _
    simp only [Function.comp]
    show (ModelUsage.ofRecords m
        (records.filter (fun r => r.model == m))).getPercentageOfTotal
        (sumBy (fun r => r.cost) records) = _
    unfold ModelUsage.getPercentageOfTotal ModelUsage.ofRecords
    rw [if_neg hne]
    rw [sumBy_eq]
  rw [List.map_congr_left hcong, sum_map_div_mul]
  have hsum := sum_over_groups (fun r => r.model) (fun r => r.cost)
    (firstSeen (records.map (fun r => r.model))) (firstSeen_nodup _) records
    (fun r hr => firstSeen_mem_of_mem (List.mem_map_of_mem _ hr))
  simp only [] at hsum
  rw [hsum, ← sumBy_eq]
  field_simp

/-! ### Claim C1 -/

/-- The kind-bucket fixture of the repository cost-analyzer test
(`tests/domain/analyzers/cost.test.js`): included 10, on-demand 20,
errored 15, aborted 5. -/
def c1Records : List UsageRecord :=
  [ { date := "2025-10-10T10:00:00Z", kind := "Included", model := "grok",
      cost := 10, totalTokens := 1000, cacheRead := 0, input := 0,
      output := 0 },
    { date := "2025-10-10T11:00:00Z", kind := "On-Demand", model := "claude",
      cost := 20, totalTokens := 2000, cacheRead := 0, input := 0,
      output := 0 },
    { date := "2025-10-11T10:00:00Z", kind := "Errored, Not Charged",
      model := "grok", cost := 15, totalTokens := 1500, cacheRead := 0,
      input := 0, output := 0 },
    { date := "2025-10-11T11:00:00Z", kind := "Aborted, Not Charged",
      model := "grok", cost := 5, totalTokens := 500, cacheRead := 0,
      input := 0, output := 0 } ]

/-- C1: the kind-bucket percentage invariant fails on the code. At the
repository test input (total cost 50, errored/aborted events
carrying raw cost 20), the three `breakdown_by_type` percentages sum to
60, not 100, because the errored raw cost stays in the denominator while
its bucket is zeroed; the per-model breakdown percentages do sum to 100 at
the same input. The repository test asserts the 100% sum, so the code
contradicts its own test suite. -/
theorem c1_kind_bucket_sum_violation :
    sumBy (fun r => r.cost) c1Records = 50 ∧
    (CostAnalyzer.calculateBreakdownByType c1Records).included.percentage +
      (CostAnalyzer.calculateBreakdownByType c1Records).on_demand.percentage +
      (CostAnalyzer.calculateBreakdownByType c1Records).errored.percentage
      = 60 ∧
    (60 : ℚ) ≠ 100 ∧
    ((CostAnalyzer.calculateBreakdownByModel c1Records).map
      (fun e => e.percentage)).sum = 100 := by
  decide

/-! ### Claim C2 -/

/-- A single-model input whose cost per million tokens is 10/3, so that
the exact clamp value 299/3 is not representable in 2 decimal places. -/
def c2Mu : ModelUsage := ModelUsage.ofRecords "m1"
  [ { date := "2025-10-10T10:00:00Z", kind := "Included", model := "m1",
      cost := 1, totalTokens := 300000, cacheRead := 0, input := 0,
      output := 0 } ]

/-- C2 counterexample: the efficiency score does not equal
`clamp(100 - costPerMillionTokens/10, 0, 100)` as claimed — the code
rounds the clamped value to 2 decimal places. For a non-reasoning model
with cost 1 over 300000 tokens the clamp value is 299/3 = 99.666…, but
the reported score is 99.67. -/
theorem c2_score_not_exact_clamp :
    c2Mu.isThinkingModel = false ∧
    ModelEfficiencyAnalyzer.calculateEfficiencyScore c2Mu = 9967/100 ∧
    max 0 (min 100 (100 - c2Mu.getCostPerMillionTokens / 10)) = 299/3 ∧
    ModelEfficiencyAnalyzer.calculateEfficiencyScore c2Mu ≠
      max 0 (min 100 (100 - c2Mu.getCostPerMillionTokens / 10)) := by
  decide

/-- Scenario B of the claim: one model, cost 0.10, one million total
tokens. -/
def c2ScenarioB : ModelUsage := ModelUsage.ofRecords "m1"
  [ { date := "2025-10-10T10:00:00Z", kind := "Included", model := "m1",
      cost := 1/10, totalTokens := 1000000, cacheRead := 0, input := 0,
      output := 0 } ]

theorem roundedClampDivBounds (y : ℚ) :
    0 ≤ jsRound (max 0 (min 100 y) * 100) / 100 ∧
    jsRound (max 0 (min 100 y) * 100) / 100 ≤ 100 := by
  have h0 : (0 : ℚ) ≤ max 0 (min 100 y) := le_max_left _ _
  have h100 : max 0 (min 100 y) ≤ 100 :=
    max_le (by norm_num) (min_le_left _ _)
  have hr0 : 0 ≤ jsRound (max 0 (min 100 y) * 100) :=
    jsRound_nonneg _ (by nlinarith)
  have hr1 : jsRound (max 0 (min 100 y) * 100) ≤ 10000 :=
    jsRound_le _ 10000 ⟨10000, by norm_num⟩ (by nlinarith)
  constructor
  · positivity
  · linarith

/-- C2 (amended): the efficiency score equals the claimed clamp formula
rounded to two decimal places (`Math.round` at the cent scale): total-token
basis for ordinary models, output-token basis with a 1.2 multiplier
applied before clamping for reasoning models. Every score lies in
[0, 100]. Scenario B: cost 0.10 over 1,000,000 tokens gives cost per
million 0.10, score exactly 99.99, category `cost_efficient`. -/
theorem c2_efficiency_score_rounded_clamp :
    (∀ mu : ModelUsage,
      ModelEfficiencyAnalyzer.calculateEfficiencyScore mu =
        jsRound ((max 0 (min 100
          (if mu.isThinkingModel then
            (100 - mu.getCostPerMillionOutputTokens / 10) * (12/10)
          else
            100 - mu.getCostPerMillionTokens / 10))) * 100) / 100 ∧
      0 ≤ ModelEfficiencyAnalyzer.calculateEfficiencyScore mu ∧
      ModelEfficiencyAnalyzer.calculateEfficiencyScore mu ≤ 100) ∧
    ModelEfficiencyAnalyzer.calculateEfficiencyScore c2ScenarioB =
      9999/100 ∧
    c2ScenarioB.getCostPerMillionTokens = 1/10 ∧
    c2ScenarioB.getCategory = "cost_efficient" := by
  refine ⟨fun mu => ?_, by decide, by decide, by decide⟩
  have heq : ModelEfficiencyAnalyzer.calculateEfficiencyScore mu =
      jsRound ((max 0 (min 100
        (if mu.isThinkingModel then
          (100 - mu.getCostPerMillionOutputTokens / 10) * (12/10)
        else
          100 - mu.getCostPerMillionTokens / 10))) * 100) / 100 := by
    unfold ModelEfficiencyAnalyzer.calculateEfficiencyScore
    by_cases h : mu.isThinkingModel <;> simp [h]
  refine ⟨heq, ?_, ?_⟩
  · rw [heq]
    exact (roundedClampDivBounds _).1
  · rw [heq]
    exact (roundedClampDivBounds _).2

/-! ### Claim C3 -/

theorem typeStep_foldl_errored (l : List UsageRecord)
    (acc : CostAnalyzer.TypeAccum) :
    (l.foldl CostAnalyzer.typeStep acc).erroredCost = acc.erroredCost := by
  induction l generalizing acc with
  | nil => rfl
  | cons r t ih =>
    rw [List.foldl_cons, ih]
    unfold CostAnalyzer.typeStep
    split_ifs <;> simp

/-- C3: for every non-empty record list, the errored kind bucket of
`calculateBreakdownByType` reports cost 0 regardless of the raw
`costAmount` of the errored events: the classification loop adds 0 to the
errored cost bucket. -/
theorem c3_errored_bucket_cost_zero (records : List UsageRecord)
    (_h : records ≠ []) :
    (CostAnalyzer.calculateBreakdownByType records).errored.cost = 0 := by
  unfold CostAnalyzer.calculateBreakdownByType
  simp only []
  rw [typeStep_foldl_errored]

/-- An input whose only record is an errored event with non-zero raw
cost. -/
def c3Records : List UsageRecord :=
  [ { date := "2025-10-10T10:00:00Z", kind := "Errored, Not Charged",
      model := "m1", cost := 15, totalTokens := 1500, cacheRead := 0,
      input := 0, output := 0 },
    { date := "2025-10-10T11:00:00Z", kind := "Included", model := "m1",
      cost := 3, totalTokens := 300, cacheRead := 0, input := 0,
      output := 0 } ]

/-- C3 witness: a concrete input containing an errored event with raw
cost 15 still reports `breakdown_by_type.errored.cost = 0`. -/
theorem c3_errored_bucket_cost_zero_witness :
    c3Records ≠ [] ∧
    (∃ r ∈ c3Records, r.isErrored = true ∧ r.cost ≠ 0) ∧
    (CostAnalyzer.calculateBreakdownByType c3Records).errored.cost = 0 :=
  ⟨by decide, by decide, c3_errored_bucket_cost_zero c3Records (by decide)⟩

/-! ### Claim C4 -/

theorem max_zero_conservative (s : ℚ) :
    max 0 (if s > 0 then s * (9/10) else 0) = max 0 (s * (9/10)) := by
  split_ifs with h
  · rfl
  · have hs : s ≤ 0 := not_lt.mp h
    have h9 : s * (9/10) ≤ 0 := by nlinarith
    simp [max_eq_left h9]

theorem max_zero_conservative_yearly (s : ℚ) :
    max 0 ((if s > 0 then s * (9/10) else 0) * 12) =
      max 0 (if s > 0 then s * (9/10) else 0) * 12 := by
  split_ifs with h
  · have h9 : (0:ℚ) ≤ s * (9/10) := by nlinarith
    rw [max_eq_right (by nlinarith), max_eq_right h9]
  · simp

theorem genrec_savings_monthly (cp : CurrentPlan) (mc : ℚ)
    (ra : RequestAnalysis) (cs : CostSummary) :
    (PlanOptimizer.generateRecommendation cp mc ra cs).savings_monthly =
      max 0 (PlanOptimizer.planRawSavings mc ra * (9/10)) := by
  unfold PlanOptimizer.generateRecommendation PlanOptimizer.planRawSavings
  split_ifs <;> exact max_zero_conservative _

theorem genrec_savings_yearly (cp : CurrentPlan) (mc : ℚ)
    (ra : RequestAnalysis) (cs : CostSummary) :
    (PlanOptimizer.generateRecommendation cp mc ra cs).savings_yearly =
      (PlanOptimizer.generateRecommendation cp mc ra cs).savings_monthly
        * 12 := by
  unfold PlanOptimizer.generateRecommendation
  split_ifs <;> exact max_zero_conservative_yearly _

/-- C4: for every non-empty record list and cost summary, the
monthly savings reported by the `PlanOptimizer` recommendation equals
`max(0, raw * 0.9)` where `raw` is the `savings` value produced by the
decision tree; it is therefore nonnegative, and the yearly savings equals
exactly 12 times the monthly savings. -/
theorem c4_savings_conservative (records : List UsageRecord)
    (cs : CostSummary) (h : records ≠ []) :
    ∃ pa, PlanOptimizer.analyze (some records) (some cs) = .ok pa ∧
      pa.recommendation.savings_monthly =
        max 0 (PlanOptimizer.planRawSavings
          (PlanOptimizer.calculateMonthlyCost cs)
          (PlanOptimizer.analyzeRequestVolume records cs) * (9/10)) ∧
      pa.recommendation.savings_yearly =
        pa.recommendation.savings_monthly * 12 ∧
      0 ≤ pa.recommendation.savings_monthly := by
  obtain ⟨r, t, rfl⟩ := List.exists_cons_of_ne_nil h
  simp only [PlanOptimizer.analyze]
  refine ⟨_, rfl, ?_, ?_, ?_⟩
  · exact genrec_savings_monthly
      (PlanOptimizer.detectCurrentPlan (r :: t) cs
        (PlanOptimizer.calculateMonthlyCost cs))
      (PlanOptimizer.calculateMonthlyCost cs)
      (PlanOptimizer.analyzeRequestVolume (r :: t) cs) cs
  · exact genrec_savings_yearly
      (PlanOptimizer.detectCurrentPlan (r :: t) cs
        (PlanOptimizer.calculateMonthlyCost cs))
      (PlanOptimizer.calculateMonthlyCost cs)
      (PlanOptimizer.analyzeRequestVolume (r :: t) cs) cs
  · rw [genrec_savings_monthly
      (PlanOptimizer.detectCurrentPlan (r :: t) cs
        (PlanOptimizer.calculateMonthlyCost cs))
      (PlanOptimizer.calculateMonthlyCost cs)
      (PlanOptimizer.analyzeRequestVolume (r :: t) cs) cs]
    exact le_max_left _ _

/-- A one-record input for the C4 witness: daily cost 10 over 1 day gives
a projected monthly cost of 300, reaching the Ultra branch. -/
def c4Records : List UsageRecord :=
  [ { date := "2025-10-10T10:00:00Z", kind := "Included", model := "m1",
      cost := 10, totalTokens := 100, cacheRead := 0, input := 0,
      output := 0 } ]

/-- C4 witness at a concrete input. -/
theorem c4_savings_conservative_witness :
    ∃ pa, PlanOptimizer.analyze (some c4Records)
        (some (CostAnalyzer.calculateSummary c4Records)) = .ok pa ∧
      pa.recommendation.savings_monthly =
        max 0 (PlanOptimizer.planRawSavings
          (PlanOptimizer.calculateMonthlyCost
            (CostAnalyzer.calculateSummary c4Records))
          (PlanOptimizer.analyzeRequestVolume c4Records
            (CostAnalyzer.calculateSummary c4Records)) * (9/10)) ∧
      pa.recommendation.savings_yearly =
        pa.recommendation.savings_monthly * 12 ∧
      0 ≤ pa.recommendation.savings_monthly :=
  c4_savings_conservative c4Records (CostAnalyzer.calculateSummary c4Records)
    (by decide)

/-! ### Claim C5 -/

instance savingsRelTotal : IsTotal Opportunity
    (fun a b => b.savings_monthly ≤ a.savings_monthly) :=
  ⟨fun a b => le_total b.savings_monthly a.savings_monthly⟩

instance savingsRelTrans : IsTrans Opportunity
    (fun a b => b.savings_monthly ≤ a.savings_monthly) :=
  ⟨fun _ _ _ h1 h2 => le_trans h2 h1⟩

/-- C5: for every non-empty record list, `SavingsOpportunitiesAnalyzer`
returns at most 5 opportunities, pairwise sorted descending by monthly
savings, the reported monthly total equals the sum over the returned
(kept) opportunities only, and the yearly total is the monthly total
times 12. -/
theorem c5_opportunities_ranked (records : List UsageRecord)
    (h : records ≠ []) :
    ∃ res, SavingsOpportunitiesAnalyzer.analyze (some records) = .ok res ∧
      res.opportunities.length ≤ 5 ∧
      List.Pairwise (fun a b => b.savings_monthly ≤ a.savings_monthly)
        res.opportunities ∧
      res.total_potential_savings_monthly =
        (res.opportunities.map (fun o => o.savings_monthly)).sum ∧
      res.total_potential_savings_yearly =
        res.total_potential_savings_monthly * 12 := by
  obtain ⟨r, t, rfl⟩ := List.exists_cons_of_ne_nil h
  refine ⟨_, rfl, ?_, ?_, ?_, ?_⟩
  · exact List.length_take_le 5 _
  · exact List.Pairwise.sublist (List.take_sublist 5 _)
      (List.sorted_insertionSort _ _)
  · exact sumBy_eq _ _
  · rfl

/-- A concrete input for the C5 witness (three records over two days,
including an errored one, so that several opportunity candidates are
generated). -/
def c5Records : List UsageRecord :=
  [ { date := "2025-10-10T10:00:00Z", kind := "Included", model := "m1",
      cost := 10, totalTokens := 1000, cacheRead := 0, input := 1000,
      output := 0 },
    { date := "2025-10-10T11:00:00Z", kind := "Errored, Not Charged",
      model := "m1", cost := 1, totalTokens := 100, cacheRead := 0,
      input := 100, output := 0 },
    { date := "2025-10-11T10:00:00Z", kind := "On-Demand", model := "m2",
      cost := 20, totalTokens := 1000, cacheRead := 0, input := 1000,
      output := 0 } ]

/-- C5 witness at a concrete input. -/
theorem c5_opportunities_ranked_witness :
    ∃ res, SavingsOpportunitiesAnalyzer.analyze (some c5Records) = .ok res ∧
      res.opportunities.length ≤ 5 ∧
      List.Pairwise (fun a b => b.savings_monthly ≤ a.savings_monthly)
        res.opportunities ∧
      res.total_potential_savings_monthly =
        (res.opportunities.map (fun o => o.savings_monthly)).sum ∧
      res.total_potential_savings_yearly =
        res.total_potential_savings_monthly * 12 :=
  c5_opportunities_ranked c5Records (by decide)

/-! ### Claim C6 -/

/-- A reasoning (thinking) model whose total-token cost basis ($10/M) and
output-token cost basis ($1000/M) fall in different category bands. -/
def c6Mu : ModelUsage := ModelUsage.ofRecords "claude-4.5-sonnet-thinking"
  [ { date := "2025-10-10T10:00:00Z", kind := "Included",
      model := "claude-4.5-sonnet-thinking", cost := 10,
      totalTokens := 1000000, cacheRead := 0, input := 0,
      output := 10000 } ]

/-- C6 counterexample: the category is NOT computed from the same cost
basis as the efficiency score. For a thinking model with
cost-per-million-output-tokens 1000 (≥ $500/M, hence `premium` under the
claimed basis), `getCategory` still uses the total-token basis ($10/M)
and returns `cost_efficient`. -/
theorem c6_category_basis_counterexample :
    c6Mu.isThinkingModel = true ∧
    c6Mu.getCostPerMillionOutputTokens = 1000 ∧
    c6Mu.getCostPerMillionTokens = 10 ∧
    c6Mu.getCategory = "cost_efficient" ∧
    c6Mu.getCategory ≠
      (if c6Mu.getCostPerMillionOutputTokens < 50 then "cost_efficient"
       else if c6Mu.getCostPerMillionOutputTokens < 500 then "specialized"
       else "premium") := by
  decide

/-- C6 (amended): `getCategory` always uses the cost-per-million-total-
tokens basis with thresholds $50/M and $500/M, for reasoning and ordinary
models alike; consequently the category agrees with the efficiency
cost basis of the score only for non-reasoning models, for which the score is
the rounded clamp of `100 - costPerMillionTokens/10`. -/
theorem c6_category_total_basis (mu : ModelUsage) :
    mu.getCategory =
      (if mu.getCostPerMillionTokens < 50 then "cost_efficient"
       else if mu.getCostPerMillionTokens < 500 then "specialized"
       else "premium") ∧
    (mu.isThinkingModel = false →
      ModelEfficiencyAnalyzer.calculateEfficiencyScore mu =
        jsRound (max 0 (min 100 (100 - mu.getCostPerMillionTokens / 10))
          * 100) / 100) := by
  constructor
  · rfl
  · intro h
    unfold ModelEfficiencyAnalyzer.calculateEfficiencyScore
    simp [h]

/-- A concrete non-reasoning model aggregate for the C6 witness. -/
def c6WitnessMu : ModelUsage := ModelUsage.ofRecords "m9"
  [ { date := "2025-10-10T10:00:00Z", kind := "Included", model := "m9",
      cost := 7, totalTokens := 100000, cacheRead := 0, input := 0,
      output := 0 } ]

/-- C6 witness at a concrete model aggregate. -/
theorem c6_category_total_basis_witness :
    c6WitnessMu.getCategory =
      (if c6WitnessMu.getCostPerMillionTokens < 50 then "cost_efficient"
       else if c6WitnessMu.getCostPerMillionTokens < 500 then "specialized"
       else "premium") ∧
    (c6WitnessMu.isThinkingModel = false →
      ModelEfficiencyAnalyzer.calculateEfficiencyScore c6WitnessMu =
        jsRound (max 0 (min 100
          (100 - c6WitnessMu.getCostPerMillionTokens / 10)) * 100) / 100) :=
  c6_category_total_basis c6WitnessMu

/-! ### Claim C7 -/

/-- Scenario D of the claim as written: exactly two events, each with 700
cache-read tokens and 300 input tokens. -/
def c7Records : List UsageRecord :=
  [ { date := "2025-10-10T10:00:00Z", kind := "Included", model := "m1",
      cost := 1/10, totalTokens := 1000, cacheRead := 700, input := 300,
      output := 0 },
    { date := "2025-10-10T11:00:00Z", kind := "Included", model := "m1",
      cost := 1/10, totalTokens := 1000, cacheRead := 700, input := 300,
      output := 0 } ]

/-- C7 counterexample: two events of (cache 700, input 300) give a cache
hit rate of 1400/2000 = 70%, not 75%; the 85% threshold is not met and
the benchmark level is not "Good". -/
theorem c7_scenario_d_counterexample :
    (CacheEfficiencyAnalyzer.calculateCacheMetrics c7Records).cache_hit_rate
      ≠ 75 ∧
    (CacheEfficiencyAnalyzer.benchmarkCacheEfficiency
      (CacheEfficiencyAnalyzer.calculateCacheMetrics
        c7Records).cache_hit_rate).threshold_met ≠ true ∧
    (CacheEfficiencyAnalyzer.benchmarkCacheEfficiency
      (CacheEfficiencyAnalyzer.calculateCacheMetrics
        c7Records).cache_hit_rate).level ≠ "Good" := by
  decide

/-- C7 (amended): for the input of exactly two events, each with
cacheReadTokens = 700 and inputTokens = 300, the analyzer reports
cacheHitRate = 70%, benchmark level "Average", and threshold_met =
false. -/
theorem c7_scenario_d_actual :
    (CacheEfficiencyAnalyzer.calculateCacheMetrics c7Records).cache_hit_rate
      = 70 ∧
    (CacheEfficiencyAnalyzer.benchmarkCacheEfficiency
      (CacheEfficiencyAnalyzer.calculateCacheMetrics
        c7Records).cache_hit_rate).level = "Average" ∧
    (CacheEfficiencyAnalyzer.benchmarkCacheEfficiency
      (CacheEfficiencyAnalyzer.calculateCacheMetrics
        c7Records).cache_hit_rate).threshold_met = false := by
  decide

/-! ### Claim C8 -/

/-- The monthly cost that `generateFeedback` derives from a present cost
summary: `(total / (days || 30)) * 30`, or 0 when the total is 0. -/
def feedbackMonthlyCost (cs : CostSummary) : ℚ :=
  if cs.cost_total = 0 then 0
  else cs.cost_total / (if cs.period_days = 0 then 30 else cs.period_days)
    * 30

/-- A Poor-band input whose cost summary projects a monthly cost of 900:
the savings projection in the code closes 25% of the gap to 100%, giving 225,
not the 168.75 that closing 25% of the gap to 75% would give. -/
def c8Records : List UsageRecord :=
  [ { date := "2025-10-10T10:00:00Z", kind := "Included", model := "m1",
      cost := 30, totalTokens := 100, cacheRead := 0, input := 100,
      output := 0 } ]

/-- C8 counterexample: at a Poor-band input with hit rate 0 and monthly
cost 900, the reported potential monthly saving is 225 =
900 * ((100 - 0) * 25%) / 100, whereas the claimed gap-to-75% projection
would give 900 * ((75 - 0) * 25%) / 100 = 168.75. -/
theorem c8_gap_not_to_75 :
    ∃ ca, CacheEfficiencyAnalyzer.analyze (some c8Records)
        (some (CostAnalyzer.calculateSummary c8Records)) = .ok ca ∧
      ca.benchmark.level = "Poor" ∧
      ca.metrics.cache_hit_rate = 0 ∧
      feedbackMonthlyCost (CostAnalyzer.calculateSummary c8Records) = 900 ∧
      ca.feedback.potential_savings =
        some { monthly := 225, yearly := 2700,
               improvement_percentage := 25 } ∧
      (225 : ℚ) ≠ 900 * ((75 - 0) * (25/100)) / 100 :=
  ⟨_, rfl, by decide, by decide, by decide, by decide, by decide⟩

theorem cache_hit_rate_bounds (records : List UsageRecord)
    (ht : ∀ r ∈ records, 0 ≤ r.cacheRead ∧ 0 ≤ r.input) :
    0 ≤ (CacheEfficiencyAnalyzer.calculateCacheMetrics
        records).cache_hit_rate ∧
      (CacheEfficiencyAnalyzer.calculateCacheMetrics
        records).cache_hit_rate ≤ 100 := by
  have hc : 0 ≤ sumBy (fun r => r.cacheRead) records :=
    sumBy_nonneg _ _ (fun r hr => (ht r hr).1)
  have hi : 0 ≤ sumBy (fun r => r.input) records :=
    sumBy_nonneg _ _ (fun r hr => (ht r hr).2)
  unfold CacheEfficiencyAnalyzer.calculateCacheMetrics
  simp only []
  split_ifs with hpos
  · constructor
    · positivity
    · have hle : sumBy (fun r => r.cacheRead) records ≤
          sumBy (fun r => r.cacheRead) records +
            sumBy (fun r => r.input) records := by linarith
      have hdiv : sumBy (fun r => r.cacheRead) records /
          (sumBy (fun r => r.cacheRead) records +
            sumBy (fun r => r.input) records) ≤ 1 :=
        div_le_one_of_le₀ hle (le_of_lt hpos)
      nlinarith
  · norm_num

theorem feedbackMonthlyCost_nonneg (cs : CostSummary)
    (h1 : 0 ≤ cs.cost_total) (h2 : 0 ≤ cs.period_days) :
    0 ≤ feedbackMonthlyCost cs := by
  unfold feedbackMonthlyCost
  split_ifs with ha hb
  · exact le_refl 0
  · exact mul_nonneg (div_nonneg h1 (by norm_num)) (by norm_num)
  · have hd : 0 < cs.period_days := lt_of_le_of_ne h2 (Ne.symm hb)
    exact mul_nonneg (div_nonneg h1 (le_of_lt hd)) (by norm_num)

theorem generateFeedback_poor_or_average (m : CacheMetrics)
    (b : CacheBenchmark) (sv : CacheSavings) (cs : CostSummary)
    (hband : b.level = "Poor" ∨ b.level = "Average")
    (hr1 : m.cache_hit_rate ≤ 100)
    (hmc : 0 ≤ feedbackMonthlyCost cs) :
    ∃ ps, (CacheEfficiencyAnalyzer.generateFeedback m b sv
        (some cs)).potential_savings = some ps ∧
      ps.monthly = feedbackMonthlyCost cs *
        ((100 - m.cache_hit_rate) *
          (if b.level = "Poor" then 25/100 else 15/100)) / 100 ∧
      ps.yearly = ps.monthly * 12 ∧
      0 ≤ ps.monthly := by
  have hgap : (0:ℚ) ≤ 100 - m.cache_hit_rate := by linarith
  have hps25 : (0:ℚ) ≤ feedbackMonthlyCost cs *
      ((m.cache_hit_rate + (100 - m.cache_hit_rate) * (25/100)) -
        m.cache_hit_rate) / 100 := by
    have h2 : (m.cache_hit_rate + (100 - m.cache_hit_rate) * (25/100)) -
        m.cache_hit_rate = (100 - m.cache_hit_rate) * (25/100) := by ring
    rw [h2]
    positivity
  have hps15 : (0:ℚ) ≤ feedbackMonthlyCost cs *
      ((m.cache_hit_rate + (100 - m.cache_hit_rate) * (15/100)) -
        m.cache_hit_rate) / 100 := by
    have h2 : (m.cache_hit_rate + (100 - m.cache_hit_rate) * (15/100)) -
        m.cache_hit_rate = (100 - m.cache_hit_rate) * (15/100) := by ring
    rw [h2]
    positivity
  simp only [CacheEfficiencyAnalyzer.generateFeedback]
  have hfm : (if cs.cost_total = 0 then (0:ℚ)
      else cs.cost_total /
        (if cs.period_days = 0 then 30 else cs.period_days) * 30) =
      feedbackMonthlyCost cs := rfl
  rw [hfm]
  rcases hband with hp | ha
  · have hbp : (b.level == CACHE_BENCHMARKS_POOR.label) = true := by
      rw [hp]
      rfl
    rw [if_pos hbp]
    refine ⟨_, rfl, ?_, ?_, ?_⟩
    · show max 0 (feedbackMonthlyCost cs *
          ((m.cache_hit_rate + (100 - m.cache_hit_rate) * (25/100)) -
            m.cache_hit_rate) / 100) = _
      rw [max_eq_right hps25, hp, if_pos rfl]
      ring
    · show max 0 (feedbackMonthlyCost cs *
          ((m.cache_hit_rate + (100 - m.cache_hit_rate) * (25/100)) -
            m.cache_hit_rate) / 100 * 12) = _
      rw [max_eq_right (by nlinarith), max_eq_right hps25]
    · exact le_max_left _ _
  · have hbp : ¬ ((b.level == CACHE_BENCHMARKS_POOR.label) = true) := by
      rw [ha]
      decide
    have hba : (b.level == CACHE_BENCHMARKS_AVERAGE.label) = true := by
      rw [ha]
      rfl
    rw [if_neg hbp, if_pos hba]
    refine ⟨_, rfl, ?_, ?_, ?_⟩
    · show max 0 (feedbackMonthlyCost cs *
          ((m.cache_hit_rate + (100 - m.cache_hit_rate) * (15/100)) -
            m.cache_hit_rate) / 100) = _
      rw [max_eq_right hps15, ha, if_neg (by decide)]
      ring
    · show max 0 (feedbackMonthlyCost cs *
          ((m.cache_hit_rate + (100 - m.cache_hit_rate) * (15/100)) -
            m.cache_hit_rate) / 100 * 12) = _
      rw [max_eq_right (by nlinarith), max_eq_right hps15]
    · exact le_max_left _ _

/-- C8 (amended): for every non-empty record list with nonnegative costs
and token counts whose cache hit rate falls in the Poor or Average band,
the cache feedback carries a potential-savings projection obtained by
closing 25% (Poor) or 15% (Average) of the gap from the current hit rate
to 100% (not to 75% as claimed), scaled to the monthly cost derived from
the cost summary; the yearly figure is 12 times the monthly figure and
both are nonnegative. -/
theorem c8_cache_feedback_projection (records : List UsageRecord)
    (h : records ≠ [])
    (hc : ∀ r ∈ records, 0 ≤ r.cost)
    (ht : ∀ r ∈ records, 0 ≤ r.cacheRead ∧ 0 ≤ r.input)
    (hband : (CacheEfficiencyAnalyzer.benchmarkCacheEfficiency
        (CacheEfficiencyAnalyzer.calculateCacheMetrics
          records).cache_hit_rate).level = "Poor" ∨
      (CacheEfficiencyAnalyzer.benchmarkCacheEfficiency
        (CacheEfficiencyAnalyzer.calculateCacheMetrics
          records).cache_hit_rate).level = "Average") :
    ∃ ca, CacheEfficiencyAnalyzer.analyze (some records)
        (some (CostAnalyzer.calculateSummary records)) = .ok ca ∧
      ∃ ps, ca.feedback.potential_savings = some ps ∧
        ps.monthly =
          feedbackMonthlyCost (CostAnalyzer.calculateSummary records) *
            ((100 - ca.metrics.cache_hit_rate) *
              (if ca.benchmark.level = "Poor" then 25/100 else 15/100))
            / 100 ∧
        ps.yearly = ps.monthly * 12 ∧
        0 ≤ ps.monthly := by
  obtain ⟨r, t, rfl⟩ := List.exists_cons_of_ne_nil h
  have hrate := cache_hit_rate_bounds (r :: t) ht
  have hcost : 0 ≤ (CostAnalyzer.calculateSummary (r :: t)).cost_total := by
    unfold CostAnalyzer.calculateSummary
    exact sumBy_nonneg _ _ hc
  have hdays : 0 ≤ (CostAnalyzer.calculateSummary (r :: t)).period_days := by
    unfold CostAnalyzer.calculateSummary
    positivity
  have hmc := feedbackMonthlyCost_nonneg _ hcost hdays
  refine ⟨_, rfl, ?_⟩
  exact generateFeedback_poor_or_average
    (CacheEfficiencyAnalyzer.calculateCacheMetrics (r :: t))
    (CacheEfficiencyAnalyzer.benchmarkCacheEfficiency
      (CacheEfficiencyAnalyzer.calculateCacheMetrics (r :: t)).cache_hit_rate)
    (CacheEfficiencyAnalyzer.calculateCacheSavings (r :: t)
      (CacheEfficiencyAnalyzer.calculateCacheMetrics (r :: t)))
    (CostAnalyzer.calculateSummary (r :: t)) hband hrate.2 hmc

/-- A Poor-band concrete input for the C8 witness. -/
def c8WitnessRecords : List UsageRecord :=
  [ { date := "2025-10-12T10:00:00Z", kind := "Included", model := "m1",
      cost := 12, totalTokens := 200, cacheRead := 100, input := 100,
      output := 0 } ]

/-- C8 witness at a concrete Poor-band input (hit rate 50%). -/
theorem c8_cache_feedback_projection_witness :
    ∃ ca, CacheEfficiencyAnalyzer.analyze (some c8WitnessRecords)
        (some (CostAnalyzer.calculateSummary c8WitnessRecords)) = .ok ca ∧
      ∃ ps, ca.feedback.potential_savings = some ps ∧
        ps.monthly =
          feedbackMonthlyCost
            (CostAnalyzer.calculateSummary c8WitnessRecords) *
            ((100 - ca.metrics.cache_hit_rate) *
              (if ca.benchmark.level = "Poor" then 25/100 else 15/100))
            / 100 ∧
        ps.yearly = ps.monthly * 12 ∧
        0 ≤ ps.monthly :=
  c8_cache_feedback_projection c8WitnessRecords (by decide) (by decide)
    (by decide) (by decide)

/-! ### Claim C9 -/

/-- C9: for a null or empty record list, the engine `analyze` and every
analyzer `analyze` entry point fail with the validation error
"Records array cannot be empty" and produce no result at all (the
`Except` is an error, so there is no partial output); moreover the
orchestrator never catches or downgrades a sub-analyzer failure: any
error of the cost analyzer propagates unchanged through the engine. -/
theorem c9_fail_fast_on_empty (now : String) (cs : CostSummary)
    (input : Option (List UsageRecord))
    (h : input = none ∨ input = some []) :
    engineAnalyze now input = .error "Records array cannot be empty" ∧
    CostAnalyzer.analyze input = .error "Records array cannot be empty" ∧
    ModelEfficiencyAnalyzer.analyze input =
      .error "Records array cannot be empty" ∧
    PlanOptimizer.analyze input (some cs) =
      .error "Records array cannot be empty" ∧
    CacheEfficiencyAnalyzer.analyze input (some cs) =
      .error "Records array cannot be empty" ∧
    SavingsOpportunitiesAnalyzer.analyze input =
      .error "Records array cannot be empty" ∧
    UsagePatternAnalyzer.analyze input cs =
      .error "Records array cannot be empty" ∧
    (∀ (inp : Option (List UsageRecord)) (e : String),
      CostAnalyzer.analyze inp = .error e →
        engineAnalyze now inp = .error e) := by
  have hprop : ∀ (inp : Option (List UsageRecord)) (e : String),
      CostAnalyzer.analyze inp = .error e →
        engineAnalyze now inp = .error e := by
    intro inp e he
    match inp with
    | none =>
      have : e = "Records array cannot be empty" := by
        simpa [CostAnalyzer.analyze] using he.symm
      rw [this]
      rfl
    | some [] =>
      have : e = "Records array cannot be empty" := by
        simpa [CostAnalyzer.analyze] using he.symm
      rw [this]
      rfl
    | some (r :: t) =>
      exact absurd he (by simp [CostAnalyzer.analyze])
  rcases h with rfl | rfl
  · exact ⟨rfl, rfl, rfl, rfl, rfl, rfl, rfl, hprop⟩
  · exact ⟨rfl, rfl, rfl, rfl, rfl, rfl, rfl, hprop⟩

/-- A throwaway cost summary for the C9 witness. -/
def c9Summary : CostSummary :=
  { period_start := "2025-10-10", period_end := "2025-10-10",
    period_days := 1, cost_total := 1, cost_daily_average := 1,
    usage_total_requests := 1, usage_requests_per_day := 1,
    usage_total_tokens := 1 }

/-- C9 witness at the concrete empty input. -/
theorem c9_fail_fast_on_empty_witness :
    engineAnalyze "2025-10-12T00:00:00Z" (some []) =
      .error "Records array cannot be empty" ∧
    CostAnalyzer.analyze (some []) =
      .error "Records array cannot be empty" ∧
    ModelEfficiencyAnalyzer.analyze (some []) =
      .error "Records array cannot be empty" ∧
    PlanOptimizer.analyze (some []) (some c9Summary) =
      .error "Records array cannot be empty" ∧
    CacheEfficiencyAnalyzer.analyze (some []) (some c9Summary) =
      .error "Records array cannot be empty" ∧
    SavingsOpportunitiesAnalyzer.analyze (some []) =
      .error "Records array cannot be empty" ∧
    UsagePatternAnalyzer.analyze (some []) c9Summary =
      .error "Records array cannot be empty" ∧
    (∀ (inp : Option (List UsageRecord)) (e : String),
      CostAnalyzer.analyze inp = .error e →
        engineAnalyze "2025-10-12T00:00:00Z" inp = .error e) :=
  c9_fail_fast_on_empty "2025-10-12T00:00:00Z" c9Summary (some [])
    (Or.inr rfl)

/-! ### Claim C10 -/

/-- C10: for every non-empty record list in which every record has zero
cache-read tokens and zero input tokens, the cache metrics avoid the
division by zero: the cache hit rate is 0 (and the overall cache
efficiency is 0 when the total token count is also 0), which lands in the
"Poor" band with the 85% threshold not met. -/
theorem c10_zero_cache_no_div_zero (records : List UsageRecord)
    (_h : records ≠ [])
    (hz : ∀ r ∈ records, r.cacheRead = 0 ∧ r.input = 0) :
    (CacheEfficiencyAnalyzer.calculateCacheMetrics records).cache_hit_rate
      = 0 ∧
    ((CacheEfficiencyAnalyzer.calculateCacheMetrics records).total_tokens = 0
      → (CacheEfficiencyAnalyzer.calculateCacheMetrics
          records).overall_cache_efficiency = 0) ∧
    (CacheEfficiencyAnalyzer.benchmarkCacheEfficiency
      (CacheEfficiencyAnalyzer.calculateCacheMetrics
        records).cache_hit_rate).level = "Poor" ∧
    (CacheEfficiencyAnalyzer.benchmarkCacheEfficiency
      (CacheEfficiencyAnalyzer.calculateCacheMetrics
        records).cache_hit_rate).threshold_met = false := by
  have hcache : sumBy (fun r => r.cacheRead) records = 0 :=
    sumBy_eq_zero _ _ (fun r hr => (hz r hr).1)
  have hinput : sumBy (fun r => r.input) records = 0 :=
    sumBy_eq_zero _ _ (fun r hr => (hz r hr).2)
  have hrate : (CacheEfficiencyAnalyzer.calculateCacheMetrics
      records).cache_hit_rate = 0 := by
    unfold CacheEfficiencyAnalyzer.calculateCacheMetrics
    simp only [hcache, hinput]
    norm_num
  refine ⟨hrate, ?_, ?_, ?_⟩
  · intro htot
    unfold CacheEfficiencyAnalyzer.calculateCacheMetrics at htot ⊢
    simp only at htot
    simp only [htot, hcache]
    norm_num
  · rw [hrate]
    rfl
  · rw [hrate]
    rfl

/-- A concrete input with no cache-read and no input tokens. -/
def c10Records : List UsageRecord :=
  [ { date := "2025-10-10T10:00:00Z", kind := "Included", model := "m1",
      cost := 1, totalTokens := 0, cacheRead := 0, input := 0,
      output := 0 } ]

/-- C10 witness at a concrete all-zero-token input. -/
theorem c10_zero_cache_no_div_zero_witness :
    (CacheEfficiencyAnalyzer.calculateCacheMetrics c10Records).cache_hit_rate
      = 0 ∧
    ((CacheEfficiencyAnalyzer.calculateCacheMetrics
        c10Records).total_tokens = 0
      → (CacheEfficiencyAnalyzer.calculateCacheMetrics
          c10Records).overall_cache_efficiency = 0) ∧
    (CacheEfficiencyAnalyzer.benchmarkCacheEfficiency
      (CacheEfficiencyAnalyzer.calculateCacheMetrics
        c10Records).cache_hit_rate).level = "Poor" ∧
    (CacheEfficiencyAnalyzer.benchmarkCacheEfficiency
      (CacheEfficiencyAnalyzer.calculateCacheMetrics
        c10Records).cache_hit_rate).threshold_met = false :=
  c10_zero_cache_no_div_zero c10Records (by decide) (by decide)

end CursorCostExplorer
